import Mathlib

/-!
Shallow embedding of the nexum-contracts repository (three Soroban contracts:
Receivable Registry in src/lib.rs, Lending Vault in
src/lending_vault/contracts/src/lib.rs, Borrow Engine in
src/borrow_contract/contracts/src/lib.rs), together with theorems settling the
frozen claims about the natural-language specification.

Machine integers: the contracts compute on i128 / u128 / u64 / u32. We model
i128 values as Int with explicit range checks mirroring the Rust checked and
saturating operations, u128 intermediates as Nat with an explicit 2^128 bound,
and u64 / u32 values as Nat. The unsigned casts (`as u128`, `as i128`) are
modelled as the wrapping functions toU128 / ofU128. Addresses, hashes and
metadata strings are opaque and modelled as Nat. Host facilities (auth,
token transfers, events) are abstracted: authorization always succeeds in the
model (no claim concerns auth failure), token transfers have no modelled
balance effect, and the payloads of published events are returned as results
where a claim observes them.
-/

set_option maxRecDepth 16000

namespace Nexum

def I128_MIN : Int := -(2 ^ 127)

def I128_MAX : Int := 2 ^ 127 - 1

def U128_SIZE : Nat := 2 ^ 128

/-- Boolean test that an Int lies in the i128 range. -/
def i128Ok (x : Int) : Bool := decide (I128_MIN ≤ x ∧ x ≤ I128_MAX)

/-- Rust i128 checked_add: some of the exact sum when it fits, none on overflow. -/
def checkedAdd (a b : Int) : Option Int :=
  if i128Ok (a + b) then some (a + b) else none

/-- Rust i128 checked_sub. -/
def checkedSub (a b : Int) : Option Int :=
  if i128Ok (a - b) then some (a - b) else none

/-- Rust i128 saturating_sub: the exact difference clamped to the i128 range
(note: it clamps at the numeric bounds of i128, not at zero). -/
def satSub (a b : Int) : Int := max I128_MIN (min I128_MAX (a - b))

/-- Rust i128 saturating_add. -/
def satAdd (a b : Int) : Int := max I128_MIN (min I128_MAX (a + b))

/-- Rust cast `x as u128` of an i128 value: reduce modulo 2^128. -/
def toU128 (x : Int) : Nat := (x % (U128_SIZE : Int)).toNat

/-- Rust cast `n as i128` of a u128 value: wrap into the signed range. -/
def ofU128 (n : Nat) : Int :=
  if n < 2 ^ 127 then (n : Int) else (n : Int) - (U128_SIZE : Int)

/-- Rust u128 checked_mul. -/
def u128CheckedMul (a b : Nat) : Option Nat :=
  if a * b < U128_SIZE then some (a * b) else none

/-- Shared core of the two mul_div helpers: widen both operands to u128,
checked-multiply, checked-divide, narrow back with a wrapping `as i128` cast.
Returns none exactly where the Rust helper returns Err(Overflow). -/
def mulDivCore (a b c : Int) : Option Int :=
  if c = 0 then none
  else
    match u128CheckedMul (toU128 a) (toU128 b) with
    | none => none
    | some p =>
      if toU128 c = 0 then none
      else some (ofU128 (p / toU128 c))

-- ===========================================================================
-- Lending Vault (src/lending_vault/contracts/src/lib.rs)
-- ===========================================================================

namespace Vault

inductive Error where
  | NotAuthorized
  | AlreadyInitialized
  | InsufficientDeposit
  | InsufficientShares
  | InsufficientLiquidity
  | MaxUtilizationExceeded
  | ContractPaused
  | ZeroAmount
  | NotBorrowContract
  | Overflow
deriving DecidableEq

structure VaultState where
  total_deposits : Int
  total_shares : Int
  total_borrowed : Int
  total_interest_earned : Int
  reserve_factor : Int
  protocol_reserves : Int
deriving DecidableEq

structure LPPosition where
  shares : Int
  deposit_timestamp : Nat
deriving DecidableEq

/-- Instance-storage of the vault contract beyond VaultState: the Paused flag,
MinDeposit, MaxUtilization, and whether DataKey::BorrowContract is set
(auth itself is host-checked and abstracted). -/
structure VaultStore where
  state : VaultState
  paused : Bool
  min_deposit : Int
  max_utilization : Int
  hasBorrow : Bool
deriving DecidableEq

/-- Vault mul_div (lines 344-348). -/
def mul_div (a b c : Int) : Except Error Int :=
  match mulDivCore a b c with
  | some v => Except.ok v
  | none => Except.error Error.Overflow

/-- calc_total_assets (lines 326-330). -/
def calc_total_assets (s : VaultState) : Int :=
  satSub (satAdd s.total_deposits s.total_interest_earned) s.protocol_reserves

/-- deposit (lines 105-145). The LP position of the depositor is passed in
(none when absent from storage); result is (shares, store, position). -/
def deposit (v : VaultStore) (pos? : Option LPPosition) (now : Nat)
    (amount : Int) : Except Error (Int × VaultStore × LPPosition) :=
  if v.paused then Except.error Error.ContractPaused
  else if amount ≤ 0 then Except.error Error.ZeroAmount
  else if amount < v.min_deposit then Except.error Error.InsufficientDeposit
  else
    let state := v.state
    let sharesE : Except Error Int :=
      if state.total_shares = 0 then Except.ok amount
      else
        let total_assets := calc_total_assets state
        if total_assets = 0 then Except.ok amount
        else mul_div amount state.total_shares total_assets
    match sharesE with
    | Except.error e => Except.error e
    | Except.ok shares =>
      if shares ≤ 0 then Except.error Error.ZeroAmount
      else
        match checkedAdd state.total_deposits amount with
        | none => Except.error Error.Overflow
        | some td =>
          match checkedAdd state.total_shares shares with
          | none => Except.error Error.Overflow
          | some ts =>
            let pos := pos?.getD { shares := 0, deposit_timestamp := now }
            match checkedAdd pos.shares shares with
            | none => Except.error Error.Overflow
            | some ps =>
              Except.ok (shares,
                { v with state :=
                    { state with total_deposits := td, total_shares := ts } },
                { pos with shares := ps })

/-- withdraw (lines 148-180). -/
def withdraw (v : VaultStore) (pos? : Option LPPosition)
    (shares_to_burn : Int) : Except Error (Int × VaultStore × LPPosition) :=
  if v.paused then Except.error Error.ContractPaused
  else if shares_to_burn ≤ 0 then Except.error Error.ZeroAmount
  else
    match pos? with
    | none => Except.error Error.InsufficientShares
    | some pos =>
      if pos.shares < shares_to_burn then Except.error Error.InsufficientShares
      else
        let state := v.state
        let total_assets := calc_total_assets state
        match mul_div shares_to_burn total_assets state.total_shares with
        | Except.error e => Except.error e
        | Except.ok withdraw_amt =>
          let available := satSub state.total_deposits state.total_borrowed
          if withdraw_amt > available then
            Except.error Error.InsufficientLiquidity
          else
            match checkedSub state.total_deposits withdraw_amt with
            | none => Except.error Error.Overflow
            | some td =>
              match checkedSub state.total_shares shares_to_burn with
              | none => Except.error Error.Overflow
              | some ts =>
                match checkedSub pos.shares shares_to_burn with
                | none => Except.error Error.Overflow
                | some ps =>
                  Except.ok (withdraw_amt,
                    { v with state :=
                        { state with total_deposits := td, total_shares := ts } },
                    { pos with shares := ps })

/-- disburse (lines 187-215). -/
def disburse (v : VaultStore) (amount : Int) : Except Error VaultStore :=
  if v.paused then Except.error Error.ContractPaused
  else if !v.hasBorrow then Except.error Error.NotBorrowContract
  else if amount ≤ 0 then Except.error Error.ZeroAmount
  else
    let state := v.state
    let available := satSub state.total_deposits state.total_borrowed
    if amount > available then Except.error Error.InsufficientLiquidity
    else
      match checkedAdd state.total_borrowed amount with
      | none => Except.error Error.Overflow
      | some new_borrowed =>
        let utilCheck : Except Error Unit :=
          if state.total_deposits > 0 then
            match mul_div new_borrowed 10000 state.total_deposits with
            | Except.error e => Except.error e
            | Except.ok util =>
              if util > v.max_utilization then
                Except.error Error.MaxUtilizationExceeded
              else Except.ok ()
          else Except.ok ()
        match utilCheck with
        | Except.error e => Except.error e
        | Except.ok _ =>
          Except.ok { v with state := { state with total_borrowed := new_borrowed } }

/-- repay (lines 218-240). Note: no pause check in the source. -/
def repay (v : VaultStore) (principal interest : Int) : Except Error VaultStore :=
  if !v.hasBorrow then Except.error Error.NotBorrowContract
  else
    let state := v.state
    match checkedAdd principal interest with
    | none => Except.error Error.Overflow
    | some _total_payment =>
      match mul_div interest state.reserve_factor 10000 with
      | Except.error e => Except.error e
      | Except.ok protocol_share =>
        match checkedSub interest protocol_share with
        | none => Except.error Error.Overflow
        | some lp_share =>
          match checkedSub state.total_borrowed principal with
          | none => Except.error Error.Overflow
          | some tb =>
            match checkedAdd state.total_deposits lp_share with
            | none => Except.error Error.Overflow
            | some td =>
              match checkedAdd state.total_interest_earned interest with
              | none => Except.error Error.Overflow
              | some tie =>
                match checkedAdd state.protocol_reserves protocol_share with
                | none => Except.error Error.Overflow
                | some pr =>
                  Except.ok { v with state :=
                    { state with
                        total_borrowed := tb, total_deposits := td,
                        total_interest_earned := tie, protocol_reserves := pr } }

/-- liq_recv (lines 243-254). Note: no pause check in the source. -/
def liq_recv (v : VaultStore) (recovered shortfall : Int) : Except Error VaultStore :=
  if !v.hasBorrow then Except.error Error.NotBorrowContract
  else
    let state := v.state
    match checkedAdd recovered shortfall with
    | none => Except.error Error.Overflow
    | some total_cleared =>
      let tb := satSub state.total_borrowed total_cleared
      let tdE : Except Error Int :=
        if recovered > 0 then
          match checkedAdd state.total_deposits recovered with
          | none => Except.error Error.Overflow
          | some td => Except.ok td
        else Except.ok state.total_deposits
      match tdE with
      | Except.error e => Except.error e
      | Except.ok td =>
        Except.ok { v with state :=
          { state with total_borrowed := tb, total_deposits := td } }

end Vault

-- ===========================================================================
-- Receivable Registry (src/lib.rs)
-- ===========================================================================

namespace Registry

inductive ReceivableStatus where
  | Active
  | Collateralized
  | Matured
  | Settled
  | Defaulted
deriving DecidableEq

structure Receivable where
  id : Nat
  owner : Nat
  original_creditor : Nat
  debtor_hash : Nat
  face_value : Int
  currency : Nat
  issuance_date : Nat
  maturity_date : Nat
  zk_proof_hash : Nat
  status : ReceivableStatus
  risk_score : Nat
  metadata_uri : Nat
deriving DecidableEq

inductive Error where
  | NotAuthorized
  | NotVerifier
  | ReceivableNotFound
  | InvalidStatus
  | InvalidMaturityDate
  | InvalidFaceValue
  | AlreadyInitialized
  | ContractPaused
  | NotOwner
  | NotBorrowContract
  | TransferNotAllowed
deriving DecidableEq

/-- Storage of the registry contract: the persistent Receivable map and
owner indices, plus the instance entries (Paused flag, whether
DataKey::BorrowContract is set, counters, NextId). Admin/verifier addresses
are elided because host auth is abstracted. -/
structure RegStore where
  receivables : Nat → Option Receivable
  owner_index : Nat → List Nat
  paused : Bool
  hasBorrow : Bool
  next_id : Nat
  total_minted : Nat
  total_active : Nat

def get_internal (s : RegStore) (id : Nat) : Except Error Receivable :=
  match s.receivables id with
  | some r => Except.ok r
  | none => Except.error Error.ReceivableNotFound

def setRecv (s : RegStore) (id : Nat) (r : Receivable) : RegStore :=
  { s with receivables := fun j => if j = id then some r else s.receivables j }

def setOwnerIndex (s : RegStore) (owner : Nat) (l : List Nat) : RegStore :=
  { s with owner_index := fun j => if j = owner then l else s.owner_index j }

def require_not_paused (s : RegStore) : Except Error Unit :=
  if s.paused then Except.error Error.ContractPaused else Except.ok ()

def require_borrow_contract (s : RegStore) : Except Error Unit :=
  if s.hasBorrow then Except.ok () else Except.error Error.NotBorrowContract

/-- mint (lines 102-159). Verifier/creditor auth is host-checked and
abstracted. -/
def mint (s : RegStore) (now : Nat) (creditor : Nat) (debtor_hash : Nat)
    (face_value : Int) (currency : Nat) (maturity_date : Nat)
    (zk_proof_hash : Nat) (risk_score : Nat) (metadata_uri : Nat) :
    Except Error (Nat × RegStore) :=
  match require_not_paused s with
  | Except.error e => Except.error e
  | Except.ok _ =>
    if face_value ≤ 0 then Except.error Error.InvalidFaceValue
    else if maturity_date ≤ now then Except.error Error.InvalidMaturityDate
    else
      let id := s.next_id
      let receivable : Receivable :=
        { id := id, owner := creditor, original_creditor := creditor,
          debtor_hash := debtor_hash, face_value := face_value,
          currency := currency, issuance_date := now,
          maturity_date := maturity_date, zk_proof_hash := zk_proof_hash,
          status := ReceivableStatus.Active, risk_score := risk_score,
          metadata_uri := metadata_uri }
      let s1 := { s with next_id := id + 1 }
      let s2 := setRecv s1 id receivable
      let s3 := setOwnerIndex s2 creditor (s2.owner_index creditor ++ [id])
      let s4 := { s3 with total_minted := s3.total_minted + 1,
                          total_active := s3.total_active + 1 }
      Except.ok (id, s4)

/-- lock (lines 162-173): pause-gated, borrow-contract-only. -/
def lock (s : RegStore) (receivable_id : Nat) : Except Error RegStore :=
  match require_not_paused s with
  | Except.error e => Except.error e
  | Except.ok _ =>
    match require_borrow_contract s with
    | Except.error e => Except.error e
    | Except.ok _ =>
      match get_internal s receivable_id with
      | Except.error e => Except.error e
      | Except.ok recv =>
        if recv.status ≠ ReceivableStatus.Active then
          Except.error Error.InvalidStatus
        else
          Except.ok (setRecv s receivable_id
            { recv with status := ReceivableStatus.Collateralized })

/-- unlock (lines 176-186): borrow-contract-only; the source has no pause
check here. -/
def unlock (s : RegStore) (receivable_id : Nat) : Except Error RegStore :=
  match require_borrow_contract s with
  | Except.error e => Except.error e
  | Except.ok _ =>
    match get_internal s receivable_id with
    | Except.error e => Except.error e
    | Except.ok recv =>
      if recv.status ≠ ReceivableStatus.Collateralized then
        Except.error Error.InvalidStatus
      else
        Except.ok (setRecv s receivable_id
          { recv with status := ReceivableStatus.Active })

/-- transfer (lines 189-216): pause-gated; only Active receivables move. -/
def transfer (s : RegStore) (receivable_id fromA toA : Nat) :
    Except Error RegStore :=
  match require_not_paused s with
  | Except.error e => Except.error e
  | Except.ok _ =>
    match get_internal s receivable_id with
    | Except.error e => Except.error e
    | Except.ok recv =>
      if recv.owner ≠ fromA then Except.error Error.NotOwner
      else if recv.status ≠ ReceivableStatus.Active then
        Except.error Error.TransferNotAllowed
      else
        let new_from := (s.owner_index fromA).filter (fun rid => rid ≠ receivable_id)
        let s1 := setOwnerIndex s fromA new_from
        let s2 := setOwnerIndex s1 toA (s1.owner_index toA ++ [receivable_id])
        Except.ok (setRecv s2 receivable_id { recv with owner := toA })

/-- settle (lines 218-230): admin-only (auth abstracted); the source has no
pause check here. -/
def settle (s : RegStore) (receivable_id : Nat) : Except Error RegStore :=
  match get_internal s receivable_id with
  | Except.error e => Except.error e
  | Except.ok recv =>
    if recv.status ≠ ReceivableStatus.Active ∧
        recv.status ≠ ReceivableStatus.Matured then
      Except.error Error.InvalidStatus
    else
      let s1 := setRecv s receivable_id
        { recv with status := ReceivableStatus.Settled }
      Except.ok { s1 with total_active := s1.total_active - 1 }

/-- mark_default (lines 232-241): admin-only (auth abstracted); no pause
check and no status check in the source. -/
def mark_default (s : RegStore) (receivable_id : Nat) : Except Error RegStore :=
  match get_internal s receivable_id with
  | Except.error e => Except.error e
  | Except.ok recv =>
    let s1 := setRecv s receivable_id
      { recv with status := ReceivableStatus.Defaulted }
    Except.ok { s1 with total_active := s1.total_active - 1 }

/-- get_recv (lines 244-246), the read-only view. -/
def get_recv (s : RegStore) (receivable_id : Nat) : Except Error Receivable :=
  get_internal s receivable_id

/-- Observe the status of a stored receivable (projection used by theorems). -/
def statusOf (s : RegStore) (rid : Nat) : Option ReceivableStatus :=
  (s.receivables rid).map (fun r => r.status)

/-- Keep the post-state of a registry call, or the pre-state on error. -/
def regRun (s : RegStore) (r : Except Error RegStore) : RegStore :=
  match r with
  | Except.ok s1 => s1
  | Except.error _ => s

/-- Whether a registry call succeeded. -/
def regOk (r : Except Error RegStore) : Bool :=
  match r with
  | Except.ok _ => true
  | Except.error _ => false

end Registry

-- ===========================================================================
-- Borrow Engine (src/borrow_contract/contracts/src/lib.rs)
-- ===========================================================================

namespace Borrow

inductive LoanStatus where
  | Active
  | Repaid
  | Liquidated
deriving DecidableEq

structure Loan where
  id : Nat
  borrower : Nat
  receivable_ids : List Nat
  collateral_value : Int
  principal : Int
  interest_rate : Int
  accrued_interest : Int
  borrowed_at : Nat
  last_interest_update : Nat
  due_date : Nat
  status : LoanStatus
deriving DecidableEq

structure BorrowConfig where
  max_ltv : Int
  liquidation_threshold : Int
  liquidation_penalty : Int
  base_interest_rate : Int
  max_loan_duration : Nat
  risk_discount_factor : Int
deriving DecidableEq

inductive Error where
  | NotAuthorized
  | AlreadyInitialized
  | LoanNotFound
  | InvalidStatus
  | LTVExceeded
  | InsufficientCollateral
  | NotLiquidatable
  | ZeroAmount
  | ContractPaused
  | InvalidDuration
  | RecvNotOwned
  | RecvNotActive
  | Overflow
  | NotBorrower
deriving DecidableEq

def SECONDS_PER_YEAR : Nat := 31557600

/-- Borrow-engine mul_div (lines 479-483); same algorithm as the vault helper. -/
def mul_div (a b c : Int) : Except Error Int :=
  match mulDivCore a b c with
  | some v => Except.ok v
  | none => Except.error Error.Overflow

/-- accrue (lines 386-401): simple non-compounding interest in widened
unsigned arithmetic. now and timestamps are u64, modelled as Nat, so the
u64 saturating_sub is Nat subtraction. -/
def accrue (now : Nat) (loan : Loan) : Except Error Loan :=
  let elapsed := now - loan.last_interest_update
  if elapsed = 0 then Except.ok loan
  else
    match u128CheckedMul (toU128 loan.principal) (toU128 loan.interest_rate) with
    | none => Except.error Error.Overflow
    | some n1 =>
      match u128CheckedMul n1 elapsed with
      | none => Except.error Error.Overflow
      | some num =>
        let den := SECONDS_PER_YEAR * 10000
        let new_interest := ofU128 (num / den)
        match checkedAdd loan.accrued_interest new_interest with
        | none => Except.error Error.Overflow
        | some ai =>
          Except.ok { loan with accrued_interest := ai, last_interest_update := now }

end Borrow

-- ===========================================================================
-- Combined system: the Borrow Engine orchestrating Registry and Vault via
-- synchronous cross-contract invocations.
-- ===========================================================================

/-- An error surfaced by a Borrow Engine entry point: either its own, or one
propagated from a nested Registry / Vault invocation (a failed
invoke_contract aborts the outer call). -/
inductive XError where
  | reg (e : Registry.Error)
  | vault (e : Vault.Error)
  | bor (e : Borrow.Error)
deriving DecidableEq

/-- Combined state touched by Borrow Engine entry points: the Registry store,
the Vault store, and the Borrow Engine's own instance/persistent storage.
now is the shared ledger timestamp (u64). -/
structure Sys where
  reg : Registry.RegStore
  vault : Vault.VaultStore
  config : Borrow.BorrowConfig
  loans : Nat → Option Borrow.Loan
  borrower_loans : Nat → List Nat
  next_loan_id : Nat
  total_loans : Nat
  total_borrowed : Int
  paused : Bool
  now : Nat

namespace Borrow

def get_internal (σ : Sys) (id : Nat) : Except Error Loan :=
  match σ.loans id with
  | some l => Except.ok l
  | none => Except.error Error.LoanNotFound

def setLoan (σ : Sys) (id : Nat) (l : Loan) : Sys :=
  { σ with loans := fun j => if j = id then some l else σ.loans j }

/-- One iteration of the collateral-valuation loop in borrow (lines 170-183):
fetch the receivable, check ownership and Active status, apply the risk
discount, and accumulate with overflow checks. -/
def collatStep (σ : Sys) (borrower : Nat) (acc : Int) (rid : Nat) :
    Except XError Int :=
  match Registry.get_recv σ.reg rid with
  | Except.error e => Except.error (XError.reg e)
  | Except.ok recv =>
    if recv.owner ≠ borrower then Except.error (XError.bor Error.RecvNotOwned)
    else if recv.status ≠ Registry.ReceivableStatus.Active then
      Except.error (XError.bor Error.RecvNotActive)
    else
      match mul_div (recv.risk_score : Int) σ.config.risk_discount_factor 10000 with
      | Except.error e => Except.error (XError.bor e)
      | Except.ok risk_disc =>
        let eff := satSub 10000 risk_disc
        match mul_div recv.face_value eff 10000 with
        | Except.error e => Except.error (XError.bor e)
        | Except.ok disc_val =>
          match checkedAdd acc disc_val with
          | none => Except.error (XError.bor Error.Overflow)
          | some acc1 => Except.ok acc1

/-- The collateral-valuation loop of borrow over the receivable list. -/
def collatLoop (σ : Sys) (borrower : Nat) (acc : Int) :
    List Nat → Except XError Int
  | [] => Except.ok acc
  | rid :: rest =>
    match collatStep σ borrower acc rid with
    | Except.error e => Except.error e
    | Except.ok acc1 => collatLoop σ borrower acc1 rest

/-- The lock loop of borrow (lines 190-197): lock each receivable in the
Registry. -/
def lockAll (reg : Registry.RegStore) : List Nat → Except XError Registry.RegStore
  | [] => Except.ok reg
  | rid :: rest =>
    match Registry.lock reg rid with
    | Except.error e => Except.error (XError.reg e)
    | Except.ok reg1 => lockAll reg1 rest

/-- The unlock loop of repay_loan (lines 288-297). -/
def unlockAll (reg : Registry.RegStore) : List Nat → Except XError Registry.RegStore
  | [] => Except.ok reg
  | rid :: rest =>
    match Registry.unlock reg rid with
    | Except.error e => Except.error (XError.reg e)
    | Except.ok reg1 => unlockAll reg1 rest

/-- The unlock-then-transfer loop of liquidate (lines 340-356): each
receivable is unlocked and its ownership moved from the borrower to the
liquidator. -/
def seizeAll (borrower liquidator : Nat) (reg : Registry.RegStore) :
    List Nat → Except XError Registry.RegStore
  | [] => Except.ok reg
  | rid :: rest =>
    match Registry.unlock reg rid with
    | Except.error e => Except.error (XError.reg e)
    | Except.ok reg1 =>
      match Registry.transfer reg1 rid borrower liquidator with
      | Except.error e => Except.error (XError.reg e)
      | Except.ok reg2 => seizeAll borrower liquidator reg2 rest

/-- borrow (lines 149-239). Returns the new loan id and the post-state. -/
def borrow (σ : Sys) (borrower : Nat) (receivable_ids : List Nat)
    (borrow_amount : Int) (duration : Nat) : Except XError (Nat × Sys) :=
  if σ.paused then Except.error (XError.bor Error.ContractPaused)
  else if borrow_amount ≤ 0 then Except.error (XError.bor Error.ZeroAmount)
  else if duration = 0 ∨ duration > σ.config.max_loan_duration then
    Except.error (XError.bor Error.InvalidDuration)
  else
    match collatLoop σ borrower 0 receivable_ids with
    | Except.error e => Except.error e
    | Except.ok total_collateral =>
      match mul_div total_collateral σ.config.max_ltv 10000 with
      | Except.error e => Except.error (XError.bor e)
      | Except.ok max_borrow =>
        if borrow_amount > max_borrow then
          Except.error (XError.bor Error.LTVExceeded)
        else
          match lockAll σ.reg receivable_ids with
          | Except.error e => Except.error e
          | Except.ok reg1 =>
            match Vault.disburse σ.vault borrow_amount with
            | Except.error e => Except.error (XError.vault e)
            | Except.ok vault1 =>
              let loan_id := σ.next_loan_id
              let loan : Loan :=
                { id := loan_id, borrower := borrower,
                  receivable_ids := receivable_ids,
                  collateral_value := total_collateral,
                  principal := borrow_amount,
                  interest_rate := σ.config.base_interest_rate,
                  accrued_interest := 0, borrowed_at := σ.now,
                  last_interest_update := σ.now, due_date := σ.now + duration,
                  status := LoanStatus.Active }
              let σ1 := { σ with reg := reg1, vault := vault1,
                                 next_loan_id := loan_id + 1 }
              let σ2 := setLoan σ1 loan_id loan
              let σ3 := { σ2 with
                borrower_loans := fun j =>
                  if j = borrower then σ2.borrower_loans borrower ++ [loan_id]
                  else σ2.borrower_loans j,
                total_loans := σ2.total_loans + 1,
                total_borrowed := σ2.total_borrowed + borrow_amount }
              Except.ok (loan_id, σ3)

/-- repay_loan (lines 245-302). Returns the remaining debt and post-state. -/
def repay_loan (σ : Sys) (borrower : Nat) (loan_id : Nat) (amount : Int) :
    Except XError (Int × Sys) :=
  if σ.paused then Except.error (XError.bor Error.ContractPaused)
  else if amount ≤ 0 then Except.error (XError.bor Error.ZeroAmount)
  else
    match get_internal σ loan_id with
    | Except.error e => Except.error (XError.bor e)
    | Except.ok loan0 =>
      if loan0.status ≠ LoanStatus.Active then
        Except.error (XError.bor Error.InvalidStatus)
      else if loan0.borrower ≠ borrower then
        Except.error (XError.bor Error.NotBorrower)
      else
        match accrue σ.now loan0 with
        | Except.error e => Except.error (XError.bor e)
        | Except.ok loan =>
          match checkedAdd loan.principal loan.accrued_interest with
          | none => Except.error (XError.bor Error.Overflow)
          | some total_owed =>
            let payment := min amount total_owed
            let interest_pay := min payment loan.accrued_interest
            match checkedSub payment interest_pay with
            | none => Except.error (XError.bor Error.Overflow)
            | some principal_pay =>
              match Vault.repay σ.vault principal_pay interest_pay with
              | Except.error e => Except.error (XError.vault e)
              | Except.ok vault1 =>
                match checkedSub loan.principal principal_pay with
                | none => Except.error (XError.bor Error.Overflow)
                | some p1 =>
                  match checkedSub loan.accrued_interest interest_pay with
                  | none => Except.error (XError.bor Error.Overflow)
                  | some i1 =>
                    let loan1 := { loan with principal := p1, accrued_interest := i1 }
                    match checkedAdd p1 i1 with
                    | none => Except.error (XError.bor Error.Overflow)
                    | some remaining =>
                      if remaining = 0 then
                        match unlockAll σ.reg loan1.receivable_ids with
                        | Except.error e => Except.error e
                        | Except.ok reg1 =>
                          let loan2 := { loan1 with status := LoanStatus.Repaid }
                          Except.ok (remaining,
                            setLoan { σ with reg := reg1, vault := vault1 } loan_id loan2)
                      else
                        Except.ok (remaining,
                          setLoan { σ with vault := vault1 } loan_id loan1)

/-- liquidate (lines 308-371). The published event payload
(recovered, shortfall) is returned as the result so theorems can observe it. -/
def liquidate (σ : Sys) (liquidator : Nat) (loan_id : Nat) :
    Except XError ((Int × Int) × Sys) :=
  if σ.paused then Except.error (XError.bor Error.ContractPaused)
  else
    match get_internal σ loan_id with
    | Except.error e => Except.error (XError.bor e)
    | Except.ok loan0 =>
      if loan0.status ≠ LoanStatus.Active then
        Except.error (XError.bor Error.InvalidStatus)
      else
        match accrue σ.now loan0 with
        | Except.error e => Except.error (XError.bor e)
        | Except.ok loan =>
          match checkedAdd loan.principal loan.accrued_interest with
          | none => Except.error (XError.bor Error.Overflow)
          | some total_debt =>
            match mul_div total_debt 10000 loan.collateral_value with
            | Except.error e => Except.error (XError.bor e)
            | Except.ok current_ltv =>
              let is_underwater := current_ltv > σ.config.liquidation_threshold
              let is_overdue := σ.now > loan.due_date
              if ¬is_underwater ∧ ¬is_overdue then
                Except.error (XError.bor Error.NotLiquidatable)
              else
                match mul_div total_debt σ.config.liquidation_penalty 10000 with
                | Except.error e => Except.error (XError.bor e)
                | Except.ok penalty =>
                  match checkedAdd total_debt penalty with
                  | none => Except.error (XError.bor Error.Overflow)
                  | some liq_value =>
                    let recovered := min loan.collateral_value liq_value
                    let shortfall := satSub total_debt recovered
                    match seizeAll loan.borrower liquidator σ.reg loan.receivable_ids with
                    | Except.error e => Except.error e
                    | Except.ok reg1 =>
                      match Vault.liq_recv σ.vault recovered shortfall with
                      | Except.error e => Except.error (XError.vault e)
                      | Except.ok vault1 =>
                        let loan1 := { loan with status := LoanStatus.Liquidated }
                        Except.ok ((recovered, shortfall),
                          setLoan { σ with reg := reg1, vault := vault1 } loan_id loan1)

/-- accrue_interest (lines 377-384). -/
def accrue_interest (σ : Sys) (loan_id : Nat) : Except XError (Int × Sys) :=
  match get_internal σ loan_id with
  | Except.error e => Except.error (XError.bor e)
  | Except.ok loan0 =>
    if loan0.status ≠ LoanStatus.Active then
      Except.error (XError.bor Error.InvalidStatus)
    else
      match accrue σ.now loan0 with
      | Except.error e => Except.error (XError.bor e)
      | Except.ok loan =>
        Except.ok (loan.accrued_interest, setLoan σ loan_id loan)

end Borrow

/-- Modelled from the spec: sections 5-7 state that the hosting substrate runs
each top-level entry point as one atomic unit of work — all writes, including
those of nested cross-contract calls, are provisional and are unwound in full
when the operation fails (strong exception safety). This rollback is host
behaviour, not code under src/; it is modelled by keeping the pre-call state
whenever an entry point returns an error. -/
def runAtomic {α : Type} (σ : Sys) (r : Except XError (α × Sys)) : Sys :=
  match r with
  | Except.ok (_, σ1) => σ1
  | Except.error _ => σ

/-- Result value of a successful Borrow Engine call, if any. -/
def callResult {α : Type} (r : Except XError (α × Sys)) : Option α :=
  match r with
  | Except.ok (a, _) => some a
  | Except.error _ => none

/-- Error of a failed Borrow Engine call, if any. -/
def callError {α : Type} (r : Except XError (α × Sys)) : Option XError :=
  match r with
  | Except.ok _ => none
  | Except.error e => some e

-- ===========================================================================
-- Auxiliary definitions used by the theorems: call sequences, result
-- projections, spec-following comparison definitions, and the concrete
-- stores at which witnesses and counterexamples are evaluated.
-- ===========================================================================

/-- A liquidity-moving vault call: a withdrawal by an LP holding the given
position, or a disbursement requested by the borrow contract. -/
inductive VOp where
  | withdrawOp : Vault.LPPosition → Int → VOp
  | disburseOp : Int → VOp

/-- Execute one vault call; a failed call leaves the store unchanged (an
error aborts with no mutation). -/
def vstep (v : Vault.VaultStore) (op : VOp) : Vault.VaultStore :=
  match op with
  | VOp.withdrawOp pos s =>
    match Vault.withdraw v (some pos) s with
    | Except.ok r => r.2.1
    | Except.error _ => v
  | VOp.disburseOp a =>
    match Vault.disburse v a with
    | Except.ok v1 => v1
    | Except.error _ => v

/-- Shares returned by a successful deposit call. -/
def depShares (r : Except Vault.Error (Int × Vault.VaultStore × Vault.LPPosition)) :
    Option Int :=
  match r with
  | Except.ok (s, _, _) => some s
  | Except.error _ => none

/-- Definition following the words of the spec for the deposit share formula
(refinement comparison for C6): the first depositor receives shares equal to
amount, later depositors receive floor(amount * total_shares / total_assets). -/
def depositSharesSpec (amount total_shares total_assets : Int) : Int :=
  if total_shares = 0 then amount else amount * total_shares / total_assets

/-- Concrete vault store used by the C1 witness: 100 deposited, 90 borrowed. -/
def vC1 : Vault.VaultStore :=
  { state := { total_deposits := 100, total_shares := 100, total_borrowed := 90,
               total_interest_earned := 0, reserve_factor := 0,
               protocol_reserves := 0 },
    paused := false, min_deposit := 0, max_utilization := 10000,
    hasBorrow := true }

/-- Concrete vault store for the C6 counterexample: 5 shares outstanding but
zero total assets. -/
def vC6 : Vault.VaultStore :=
  { state := { total_deposits := 0, total_shares := 5, total_borrowed := 0,
               total_interest_earned := 0, reserve_factor := 0,
               protocol_reserves := 0 },
    paused := false, min_deposit := 0, max_utilization := 9000,
    hasBorrow := true }

/-- Concrete vault store for the C6 witness: 3 shares against 2 assets. -/
def vC6w : Vault.VaultStore :=
  { state := { total_deposits := 2, total_shares := 3, total_borrowed := 0,
               total_interest_earned := 0, reserve_factor := 0,
               protocol_reserves := 0 },
    paused := false, min_deposit := 0, max_utilization := 9000,
    hasBorrow := true }

/-- Build a receivable with the given id, owner, face value, risk score and
status (remaining fields fixed opaque values). -/
def mkRecv (id owner : Nat) (fv : Int) (rs : Nat)
    (st : Registry.ReceivableStatus) : Registry.Receivable :=
  { id := id, owner := owner, original_creditor := owner, debtor_hash := 0,
    face_value := fv, currency := 0, issuance_date := 0,
    maturity_date := 1000000000, zk_proof_hash := 0, status := st,
    risk_score := rs, metadata_uri := 0 }

/-- Registry store holding one receivable with the given record. -/
def regOne (r : Registry.Receivable) (paused : Bool) : Registry.RegStore :=
  { receivables := fun j => if j = 1 then some r else none,
    owner_index := fun j => if j = r.owner then [1] else [],
    paused := paused, hasBorrow := true, next_id := 2, total_minted := 1,
    total_active := 1 }

/-- Paused registry store with a Collateralized receivable (C8
counterexample). -/
def regC8 : Registry.RegStore :=
  regOne (mkRecv 1 7 1000000 0 Registry.ReceivableStatus.Collateralized) true

/-- Registry store with a Settled receivable (C10 counterexample). -/
def regC10 : Registry.RegStore :=
  regOne (mkRecv 1 7 1000000 0 Registry.ReceivableStatus.Settled) false

/-- Definition following the words of the spec for the per-receivable
collateral contribution (refinement comparison for C2): the claimed formula
floors the effective basis points at zero. -/
def discountedValueSpec (face_value : Int) (risk_score : Nat)
    (risk_discount_factor : Int) : Int :=
  let risk_discount := (risk_score : Int) * risk_discount_factor / 10000
  let effective := max 0 (10000 - risk_discount)
  face_value * effective / 10000

/-- Vault store with 1,000,000 deposited and nothing borrowed. -/
def vltC2 : Vault.VaultStore :=
  { state := { total_deposits := 1000000, total_shares := 1000000,
               total_borrowed := 0, total_interest_earned := 0,
               reserve_factor := 1000, protocol_reserves := 0 },
    paused := false, min_deposit := 0, max_utilization := 10000,
    hasBorrow := true }

/-- Borrow config of the C2 counterexample: risk_discount_factor 10000 so a
risk score of 20000 produces a risk discount above 10000. -/
def cfgC2 : Borrow.BorrowConfig :=
  { max_ltv := 7000, liquidation_threshold := 8500, liquidation_penalty := 500,
    base_interest_rate := 1000, max_loan_duration := 31557600,
    risk_discount_factor := 10000 }

/-- System of the C2 counterexample: one Active receivable of face value 1
and risk score 20000 owned by borrower 7, empty loan book. -/
def sysC2 : Sys :=
  { reg := regOne (mkRecv 1 7 1 20000 Registry.ReceivableStatus.Active) false,
    vault := vltC2, config := cfgC2, loans := fun _ => none,
    borrower_loans := fun _ => [], next_loan_id := 1, total_loans := 0,
    total_borrowed := 0, paused := false, now := 1000 }

/-- Spec scenario config: risk_discount_factor 0 (C2 witness). -/
def cfgS : Borrow.BorrowConfig :=
  { cfgC2 with risk_discount_factor := 0 }

/-- Spec scenario system: one Active receivable of face value 1,000,000 and
risk score 0 owned by borrower 7 (C2 witness). -/
def sysS : Sys :=
  { sysC2 with
    reg := regOne (mkRecv 1 7 1000000 0 Registry.ReceivableStatus.Active) false,
    config := cfgS }

/-- C9 witness system: same as the scenario system but with an empty vault,
so the nested disburse fails after the receivable has been locked. -/
def sysC9 : Sys :=
  { sysS with
    vault := { vltC2 with state := { vltC2.state with total_deposits := 0 } } }

/-- Loan of the C5 counterexample: frozen collateral 1,000,000 against debt
900,000, interest already up to date. -/
def loanC5 : Borrow.Loan :=
  { id := 1, borrower := 7, receivable_ids := [1], collateral_value := 1000000,
    principal := 900000, interest_rate := 1000, accrued_interest := 0,
    borrowed_at := 1000, last_interest_update := 1000, due_date := 2000,
    status := Borrow.LoanStatus.Active }

/-- System of the C5 counterexample / witness. -/
def sysC5 : Sys :=
  { sysC2 with
    reg := regOne (mkRecv 1 7 1000000 0 Registry.ReceivableStatus.Collateralized) false,
    config := cfgS,
    loans := fun j => if j = 1 then some loanC5 else none,
    now := 1000 }

/-- Loan of the C3 witness: principal 1,000,000 at 1000 bps since time 0. -/
def loanC3 : Borrow.Loan :=
  { id := 1, borrower := 7, receivable_ids := [1], collateral_value := 2000000,
    principal := 1000000, interest_rate := 1000, accrued_interest := 0,
    borrowed_at := 0, last_interest_update := 0, due_date := 1000000000,
    status := Borrow.LoanStatus.Active }

/-- Loan of the C4 witness: principal 1000 at 1000 bps, one year unpaid, so
exactly 100 interest has accrued when repaid. -/
def loanC4 : Borrow.Loan :=
  { id := 1, borrower := 7, receivable_ids := [1], collateral_value := 2000,
    principal := 1000, interest_rate := 1000, accrued_interest := 0,
    borrowed_at := 0, last_interest_update := 0, due_date := 1000000000,
    status := Borrow.LoanStatus.Active }

/-- System of the C4 witness: loan 1 outstanding against a Collateralized
receivable, one year after origination. -/
def sysC4 : Sys :=
  { sysC2 with
    reg := regOne (mkRecv 1 7 2000 0 Registry.ReceivableStatus.Collateralized) false,
    config := cfgS,
    vault := { vltC2 with state := { vltC2.state with total_borrowed := 1000 } },
    loans := fun j => if j = 1 then some loanC4 else none,
    now := 31557600 }

/-- Already-liquidated loan (C10 witness). -/
def loanLiq : Borrow.Loan :=
  { loanC5 with status := Borrow.LoanStatus.Liquidated }

/-- System holding only the liquidated loan (C10 witness). -/
def sysC10 : Sys :=
  { sysC5 with loans := fun j => if j = 1 then some loanLiq else none }

/-- Paused versions of the concrete stores, used by the C8 witness. -/
def vltPaused : Vault.VaultStore :=
  { vltC2 with paused := true }

/-- Paused system used by the C8 witness. -/
def sysPaused : Sys :=
  { sysS with paused := true }

-- ===========================================================================
-- Basic lemmas about the machine-integer model
-- ===========================================================================

theorem i128Ok_iff (x : Int) : i128Ok x = true ↔ I128_MIN ≤ x ∧ x ≤ I128_MAX := by
  simp [i128Ok]

theorem checkedAdd_some {a b c : Int} (h : checkedAdd a b = some c) : c = a + b := by
  simp only [checkedAdd] at h
  split at h
  · exact (Option.some.inj h).symm
  · exact Option.noConfusion h

theorem checkedSub_some {a b c : Int} (h : checkedSub a b = some c) : c = a - b := by
  simp only [checkedSub] at h
  split at h
  · exact (Option.some.inj h).symm
  · exact Option.noConfusion h

theorem checkedAdd_eq_some {a b : Int} (h : i128Ok (a + b) = true) :
    checkedAdd a b = some (a + b) := by
  simp [checkedAdd, h]

theorem checkedSub_eq_some {a b : Int} (h : i128Ok (a - b) = true) :
    checkedSub a b = some (a - b) := by
  simp [checkedSub, h]

theorem satSub_range (a b : Int) : I128_MIN ≤ satSub a b ∧ satSub a b ≤ I128_MAX := by
  simp only [satSub, I128_MIN, I128_MAX]
  omega

theorem satSub_le_sub (a b : Int) (h : b ≤ a) : satSub a b ≤ a - b := by
  simp only [satSub, I128_MIN, I128_MAX]
  omega

theorem satSub_eq_sub {a b : Int} (h : i128Ok (a - b) = true) : satSub a b = a - b := by
  rw [i128Ok_iff] at h
  simp only [satSub, I128_MIN, I128_MAX] at *
  omega

theorem toU128_eq {x : Int} (h0 : 0 ≤ x) (h1 : x < (U128_SIZE : Int)) :
    (toU128 x : Int) = x := by
  have : x % (U128_SIZE : Int) = x := Int.emod_eq_of_lt h0 h1
  simp [toU128, this, Int.toNat_of_nonneg h0]

theorem ofU128_eq {n : Nat} (h : n < 2 ^ 127) : ofU128 n = (n : Int) := by
  unfold ofU128
  rw [if_pos h]

/-- Evaluation of mulDivCore in the all-nonnegative, no-overflow regime:
it computes the exact floor of a*b/c. -/
theorem mulDivCore_eval {a b c : Int} (ha : 0 ≤ a) (hb : 0 ≤ b) (hc : 0 < c)
    (ha1 : a < (U128_SIZE : Int)) (hb1 : b < (U128_SIZE : Int))
    (hc1 : c < (U128_SIZE : Int))
    (hm : a * b < (U128_SIZE : Int)) (hq : a * b / c < 2 ^ 127) :
    mulDivCore a b c = some (a * b / c) := by
  have hca : (toU128 a : Int) = a := toU128_eq ha ha1
  have hcb : (toU128 b : Int) = b := toU128_eq hb hb1
  have hcc : (toU128 c : Int) = c := toU128_eq hc.le hc1
  have hmul : ((toU128 a * toU128 b : Nat) : Int) = a * b := by
    push_cast
    rw [hca, hcb]
  have hmulLt : toU128 a * toU128 b < U128_SIZE := by
    have : ((toU128 a * toU128 b : Nat) : Int) < (U128_SIZE : Int) := by
      rw [hmul]; exact hm
    exact_mod_cast this
  have hcNe : toU128 c ≠ 0 := by
    intro h0
    rw [h0] at hcc
    omega
  have hdiv : ((toU128 a * toU128 b / toU128 c : Nat) : Int) = a * b / c := by
    rw [Int.ofNat_ediv, hmul, hcc]
  have hdivLt : toU128 a * toU128 b / toU128 c < 2 ^ 127 := by
    have h1 := hdiv
    omega
  simp only [mulDivCore, u128CheckedMul, if_pos hmulLt, if_neg (show ¬ c = 0 by omega),
    if_neg hcNe, ofU128_eq hdivLt, hdiv]

theorem ofU128_eq_wrap {n : Nat} (h : ¬ n < 2 ^ 127) :
    ofU128 n = (n : Int) - (U128_SIZE : Int) := by
  unfold ofU128
  rw [if_neg h]

/-- Evaluation of mulDivCore when the u128 quotient does not fit i128: the
narrowing cast wraps the quotient into the negative range. -/
theorem mulDivCore_eval_wrap {a b c : Int} (ha : 0 ≤ a) (hb : 0 ≤ b) (hc : 0 < c)
    (ha1 : a < (U128_SIZE : Int)) (hb1 : b < (U128_SIZE : Int))
    (hc1 : c < (U128_SIZE : Int))
    (hm : a * b < (U128_SIZE : Int)) (hq : 2 ^ 127 ≤ a * b / c) :
    mulDivCore a b c = some (a * b / c - (U128_SIZE : Int)) := by
  have hca : (toU128 a : Int) = a := toU128_eq ha ha1
  have hcb : (toU128 b : Int) = b := toU128_eq hb hb1
  have hcc : (toU128 c : Int) = c := toU128_eq hc.le hc1
  have hmul : ((toU128 a * toU128 b : Nat) : Int) = a * b := by
    push_cast
    rw [hca, hcb]
  have hmulLt : toU128 a * toU128 b < U128_SIZE := by
    have : ((toU128 a * toU128 b : Nat) : Int) < (U128_SIZE : Int) := by
      rw [hmul]; exact hm
    exact_mod_cast this
  have hcNe : toU128 c ≠ 0 := by
    intro h0
    rw [h0] at hcc
    omega
  have hdiv : ((toU128 a * toU128 b / toU128 c : Nat) : Int) = a * b / c := by
    rw [Int.ofNat_ediv, hmul, hcc]
  have hdivGe : ¬ toU128 a * toU128 b / toU128 c < 2 ^ 127 := by
    have h1 := hdiv
    omega
  simp only [mulDivCore, u128CheckedMul, if_pos hmulLt, if_neg (show ¬ c = 0 by omega),
    if_neg hcNe, ofU128_eq_wrap hdivGe, hdiv]

/-- Evaluation of mulDivCore when the widened multiplication overflows u128. -/
theorem mulDivCore_mul_overflow {a b c : Int} (ha : 0 ≤ a) (hb : 0 ≤ b)
    (ha1 : a < (U128_SIZE : Int)) (hb1 : b < (U128_SIZE : Int))
    (hm : (U128_SIZE : Int) ≤ a * b) :
    mulDivCore a b c = none := by
  have hca : (toU128 a : Int) = a := toU128_eq ha ha1
  have hcb : (toU128 b : Int) = b := toU128_eq hb hb1
  have hmul : ((toU128 a * toU128 b : Nat) : Int) = a * b := by
    push_cast
    rw [hca, hcb]
  have hmulGe : ¬ toU128 a * toU128 b < U128_SIZE := by
    intro hcon
    have : ((toU128 a * toU128 b : Nat) : Int) < (U128_SIZE : Int) := by
      exact_mod_cast hcon
    omega
  by_cases hc0 : c = 0
  · simp [mulDivCore, hc0]
  · simp [mulDivCore, hc0, u128CheckedMul, hmulGe]

theorem vault_mul_div_eval {a b c : Int} (ha : 0 ≤ a) (hb : 0 ≤ b) (hc : 0 < c)
    (ha1 : a < (U128_SIZE : Int)) (hb1 : b < (U128_SIZE : Int))
    (hc1 : c < (U128_SIZE : Int))
    (hm : a * b < (U128_SIZE : Int)) (hq : a * b / c < 2 ^ 127) :
    Vault.mul_div a b c = Except.ok (a * b / c) := by
  unfold Vault.mul_div
  rw [mulDivCore_eval ha hb hc ha1 hb1 hc1 hm hq]

theorem borrow_mul_div_eval {a b c : Int} (ha : 0 ≤ a) (hb : 0 ≤ b) (hc : 0 < c)
    (ha1 : a < (U128_SIZE : Int)) (hb1 : b < (U128_SIZE : Int))
    (hc1 : c < (U128_SIZE : Int))
    (hm : a * b < (U128_SIZE : Int)) (hq : a * b / c < 2 ^ 127) :
    Borrow.mul_div a b c = Except.ok (a * b / c) := by
  unfold Borrow.mul_div
  rw [mulDivCore_eval ha hb hc ha1 hb1 hc1 hm hq]

-- ===========================================================================
-- C1: available liquidity across disburse / withdraw sequences
-- ===========================================================================

theorem withdraw_ok_preserves {v : Vault.VaultStore} {pos : Vault.LPPosition}
    {s w : Int} {v1 : Vault.VaultStore} {p1 : Vault.LPPosition}
    (h : Vault.withdraw v (some pos) s = Except.ok (w, v1, p1))
    (hinv : v.state.total_borrowed ≤ v.state.total_deposits) :
    v1.state.total_borrowed ≤ v1.state.total_deposits := by
  simp only [Vault.withdraw] at h
  split at h
  · exact Except.noConfusion h
  split at h
  · exact Except.noConfusion h
  split at h
  · exact Except.noConfusion h
  split at h
  · exact Except.noConfusion h
  split at h
  · exact Except.noConfusion h
  rename_i wamt hmd hguard
  split at h
  · exact Except.noConfusion h
  rename_i d1 hd1
  split at h
  · exact Except.noConfusion h
  rename_i s1 hs1
  split at h
  · exact Except.noConfusion h
  rename_i p2 hp2
  injection h with h'
  injection h' with hw h''
  injection h'' with hv hp
  subst hv
  show v.state.total_borrowed ≤ d1
  have hd1' := checkedSub_some hd1
  have hsat := satSub_le_sub v.state.total_deposits v.state.total_borrowed hinv
  omega

theorem disburse_ok_preserves {v : Vault.VaultStore} {a : Int}
    {v1 : Vault.VaultStore}
    (h : Vault.disburse v a = Except.ok v1)
    (hinv : v.state.total_borrowed ≤ v.state.total_deposits) :
    v1.state.total_borrowed ≤ v1.state.total_deposits := by
  simp only [Vault.disburse] at h
  split at h
  · exact Except.noConfusion h
  split at h
  · exact Except.noConfusion h
  split at h
  · exact Except.noConfusion h
  split at h
  · exact Except.noConfusion h
  rename_i hguard
  split at h
  · exact Except.noConfusion h
  rename_i nb hnb
  split at h
  · exact Except.noConfusion h
  injection h with hv
  subst hv
  show nb ≤ v.state.total_deposits
  have hnb' := checkedAdd_some hnb
  have hsat := satSub_le_sub v.state.total_deposits v.state.total_borrowed hinv
  omega

theorem vstep_preserves (v : Vault.VaultStore) (op : VOp)
    (hinv : v.state.total_borrowed ≤ v.state.total_deposits) :
    (vstep v op).state.total_borrowed ≤ (vstep v op).state.total_deposits := by
  cases op with
  | withdrawOp pos s =>
    simp only [vstep]
    split
    · rename_i r heq
      obtain ⟨w, v1, p1⟩ := r
      exact withdraw_ok_preserves heq hinv
    · exact hinv
  | disburseOp a =>
    simp only [vstep]
    split
    · rename_i v1 heq
      exact disburse_ok_preserves heq hinv
    · exact hinv

/-- C1: available liquidity (total_deposits − total_borrowed) never becomes
negative over any sequence of disburse / withdraw calls: (i) the
total_borrowed ≤ total_deposits invariant is preserved by every sequence of
such calls; (ii) withdraw fails with InsufficientLiquidity when the computed
withdraw amount exceeds total_deposits − total_borrowed; and (iii) disburse
fails with InsufficientLiquidity when the requested amount exceeds
total_deposits − total_borrowed. -/
theorem vault_available_liquidity_invariant :
    (∀ (v : Vault.VaultStore) (ops : List VOp),
        v.state.total_borrowed ≤ v.state.total_deposits →
        (ops.foldl vstep v).state.total_borrowed ≤
          (ops.foldl vstep v).state.total_deposits) ∧
    (∀ (v : Vault.VaultStore) (pos : Vault.LPPosition) (s w : Int),
        v.paused = false → 0 < s → s ≤ pos.shares →
        Vault.mul_div s (Vault.calc_total_assets v.state) v.state.total_shares
          = Except.ok w →
        i128Ok (v.state.total_deposits - v.state.total_borrowed) = true →
        v.state.total_deposits - v.state.total_borrowed < w →
        Vault.withdraw v (some pos) s
          = Except.error Vault.Error.InsufficientLiquidity) ∧
    (∀ (v : Vault.VaultStore) (a : Int),
        v.paused = false → v.hasBorrow = true → 0 < a →
        i128Ok (v.state.total_deposits - v.state.total_borrowed) = true →
        v.state.total_deposits - v.state.total_borrowed < a →
        Vault.disburse v a = Except.error Vault.Error.InsufficientLiquidity) := by
  refine ⟨?_, ?_, ?_⟩
  · intro v ops hinv
    induction ops generalizing v with
    | nil => exact hinv
    | cons op rest ih =>
      exact ih (vstep v op) (vstep_preserves v op hinv)
  · intro v pos s w hp hs hss hmd hok hlt
    have havail : satSub v.state.total_deposits v.state.total_borrowed
        = v.state.total_deposits - v.state.total_borrowed := satSub_eq_sub hok
    simp only [Vault.withdraw, hp, Bool.false_eq_true, if_false, hmd, havail]
    rw [if_neg (by omega : ¬ s ≤ 0), if_neg (by omega : ¬ pos.shares < s),
      if_pos (by omega : w > v.state.total_deposits - v.state.total_borrowed)]
  · intro v a hp hb ha hok hlt
    have havail : satSub v.state.total_deposits v.state.total_borrowed
        = v.state.total_deposits - v.state.total_borrowed := satSub_eq_sub hok
    simp only [Vault.disburse, hp, hb, Bool.false_eq_true, if_false,
      Bool.not_true, havail]
    rw [if_neg (by omega : ¬ a ≤ 0),
      if_pos (by omega : a > v.state.total_deposits - v.state.total_borrowed)]

/-- Witness for C1 at concrete inputs: the invariant holds after a concrete
disburse-then-withdraw sequence, a withdrawal of 50 shares (worth 50 > the
10 available) fails with InsufficientLiquidity, and disbursing 20 > 10
available fails with InsufficientLiquidity. -/
theorem vault_available_liquidity_invariant_witness :
    (([VOp.disburseOp 5, VOp.withdrawOp ⟨100, 0⟩ 10].foldl vstep vC1).state.total_borrowed ≤
      ([VOp.disburseOp 5, VOp.withdrawOp ⟨100, 0⟩ 10].foldl vstep vC1).state.total_deposits) ∧
    Vault.withdraw vC1 (some ⟨100, 0⟩) 50
      = Except.error Vault.Error.InsufficientLiquidity ∧
    Vault.disburse vC1 20 = Except.error Vault.Error.InsufficientLiquidity := by
  refine ⟨vault_available_liquidity_invariant.1 vC1 _ (by decide),
    vault_available_liquidity_invariant.2.1 vC1 ⟨100, 0⟩ 50 50 rfl (by decide)
      (by decide) (by rfl) (by decide) (by decide),
    vault_available_liquidity_invariant.2.2 vC1 20 rfl rfl (by decide)
      (by decide) (by decide)⟩

-- ===========================================================================
-- C7: behaviour of the shared mul_div helpers on overflow
-- ===========================================================================

/-- C7 counterexample: the claim that any quotient not fitting the narrowed
signed result yields an Overflow failure is false. At a = 2^126, b = 2,
c = 1 the exact quotient is 2^127, which exceeds i128::MAX, yet both helpers
return Ok of the silently wrapped negative value -(2^127) instead of an
Overflow failure. -/
theorem mul_div_narrowing_counterexample :
    Vault.mul_div (2 ^ 126) 2 1 = Except.ok (-(2 ^ 127)) ∧
    Borrow.mul_div (2 ^ 126) 2 1 = Except.ok (-(2 ^ 127)) ∧
    ((2 : Int) ^ 126 * 2) / 1 = 2 ^ 127 ∧ I128_MAX < (2 : Int) ^ 127 ∧
    Vault.mul_div (2 ^ 126) 2 1 ≠ Except.error Vault.Error.Overflow := by
  have h1 : Vault.mul_div (2 ^ 126) 2 1 = Except.ok (-(2 ^ 127)) := by rfl
  refine ⟨h1, by rfl, by norm_num, by norm_num [I128_MAX], ?_⟩
  intro hcon
  simp only [h1] at hcon
  exact Except.noConfusion hcon

/-- C7 (amended): for in-range nonnegative operands, a zero denominator or an
overflow of the widened u128 multiplication yields an Overflow failure in
both helpers, never a fault; but the final narrowing is a plain wrapping
cast, so a quotient exceeding i128::MAX is silently returned wrapped into
the negative range instead of failing with Overflow. -/
theorem mul_div_overflow_amended :
    ∀ a b c : Int, 0 ≤ a → 0 ≤ b → 0 ≤ c →
      a ≤ I128_MAX → b ≤ I128_MAX → c ≤ I128_MAX →
      ((c = 0 →
          Vault.mul_div a b c = Except.error Vault.Error.Overflow ∧
          Borrow.mul_div a b c = Except.error Borrow.Error.Overflow) ∧
       (0 < c → (U128_SIZE : Int) ≤ a * b →
          Vault.mul_div a b c = Except.error Vault.Error.Overflow ∧
          Borrow.mul_div a b c = Except.error Borrow.Error.Overflow) ∧
       (0 < c → a * b < (U128_SIZE : Int) → a * b / c < 2 ^ 127 →
          Vault.mul_div a b c = Except.ok (a * b / c) ∧
          Borrow.mul_div a b c = Except.ok (a * b / c)) ∧
       (0 < c → a * b < (U128_SIZE : Int) → 2 ^ 127 ≤ a * b / c →
          Vault.mul_div a b c = Except.ok (a * b / c - (U128_SIZE : Int)) ∧
          Borrow.mul_div a b c = Except.ok (a * b / c - (U128_SIZE : Int)))) := by
  intro a b c ha hb hc haM hbM hcM
  have ha1 : a < (U128_SIZE : Int) := by simp only [I128_MAX, U128_SIZE] at *; omega
  have hb1 : b < (U128_SIZE : Int) := by simp only [I128_MAX, U128_SIZE] at *; omega
  have hc1 : c < (U128_SIZE : Int) := by simp only [I128_MAX, U128_SIZE] at *; omega
  refine ⟨?_, ?_, ?_, ?_⟩
  · intro h0
    subst h0
    constructor
    · simp [Vault.mul_div, mulDivCore]
    · simp [Borrow.mul_div, mulDivCore]
  · intro hcpos hbig
    constructor
    · unfold Vault.mul_div
      rw [mulDivCore_mul_overflow ha hb ha1 hb1 hbig]
    · unfold Borrow.mul_div
      rw [mulDivCore_mul_overflow ha hb ha1 hb1 hbig]
  · intro hcpos hm hq
    exact ⟨vault_mul_div_eval ha hb hcpos ha1 hb1 hc1 hm hq,
      borrow_mul_div_eval ha hb hcpos ha1 hb1 hc1 hm hq⟩
  · intro hcpos hm hq
    constructor
    · unfold Vault.mul_div
      rw [mulDivCore_eval_wrap ha hb hcpos ha1 hb1 hc1 hm hq]
    · unfold Borrow.mul_div
      rw [mulDivCore_eval_wrap ha hb hcpos ha1 hb1 hc1 hm hq]

/-- Witness for the amended C7 at concrete inputs: a zero denominator fails
with Overflow, a u128 multiply overflow fails with Overflow, and the
out-of-range quotient 2^127 is silently wrapped to a negative value. -/
theorem mul_div_overflow_amended_witness :
    (Vault.mul_div 3 7 0 = Except.error Vault.Error.Overflow ∧
     Borrow.mul_div 3 7 0 = Except.error Borrow.Error.Overflow) ∧
    (Vault.mul_div (2 ^ 126) 4 1 = Except.error Vault.Error.Overflow ∧
     Borrow.mul_div (2 ^ 126) 4 1 = Except.error Borrow.Error.Overflow) ∧
    (Vault.mul_div (2 ^ 126) 2 1
        = Except.ok ((2 ^ 126 * 2) / 1 - (U128_SIZE : Int)) ∧
     Borrow.mul_div (2 ^ 126) 2 1
        = Except.ok ((2 ^ 126 * 2) / 1 - (U128_SIZE : Int))) := by
  refine ⟨mul_div_overflow_amended 3 7 0 (by norm_num) (by norm_num) (by norm_num)
      (by norm_num [I128_MAX]) (by norm_num [I128_MAX]) (by norm_num [I128_MAX])
      |>.1 rfl, ?_, ?_⟩
  · exact (mul_div_overflow_amended (2 ^ 126) 4 1 (by norm_num) (by norm_num)
      (by norm_num) (by norm_num [I128_MAX]) (by norm_num [I128_MAX])
      (by norm_num [I128_MAX])).2.1 (by norm_num) (by norm_num [U128_SIZE])
  · exact (mul_div_overflow_amended (2 ^ 126) 2 1 (by norm_num) (by norm_num)
      (by norm_num) (by norm_num [I128_MAX]) (by norm_num [I128_MAX])
      (by norm_num [I128_MAX])).2.2.2 (by norm_num) (by norm_num [U128_SIZE])
      (by norm_num)

-- ===========================================================================
-- C6: deposit share calculation
-- ===========================================================================

/-- C6 counterexample: in the store vC6 with 5 outstanding shares but zero
total assets, a deposit of 10 succeeds and returns 10 shares (the code falls
back to 1:1 when total_assets is zero), whereas the claimed formula
floor(amount * total_shares / total_assets) is a division by zero — under
the floor-division-by-zero-is-zero reading it predicts 0 shares, which would
moreover have been rejected as a zero-share computation. -/
theorem deposit_zero_assets_counterexample :
    depShares (Vault.deposit vC6 none 0 10) = some 10 ∧
    vC6.state.total_shares = 5 ∧
    Vault.calc_total_assets vC6.state = 0 ∧
    depositSharesSpec 10 vC6.state.total_shares (Vault.calc_total_assets vC6.state) = 0 ∧
    (10 : Int) ≠ 0 := by
  refine ⟨by rfl, by rfl, by rfl, by rfl, by norm_num⟩

/-- C6 (amended): on a successful deposit, the first depositor
(total_shares = 0) receives shares equal to amount; when total_shares is
nonzero and the pre-deposit total_assets is nonzero the depositor receives
floor(amount * total_shares / total_assets); when total_shares is nonzero
but total_assets is zero the code falls back to 1:1 and the depositor
receives amount; the shares received are always positive, and a computed
share amount of zero or less is rejected with a ZeroAmount error. -/
theorem deposit_shares_amended :
    ∀ (v : Vault.VaultStore) (pos? : Option Vault.LPPosition) (now : Nat)
      (amount sh : Int),
      (depShares (Vault.deposit v pos? now amount) = some sh →
        ((v.state.total_shares = 0 → sh = amount) ∧
         (v.state.total_shares ≠ 0 → Vault.calc_total_assets v.state = 0 →
            sh = amount) ∧
         (v.state.total_shares ≠ 0 → 0 < Vault.calc_total_assets v.state →
            0 ≤ amount → 0 ≤ v.state.total_shares →
            amount ≤ I128_MAX → v.state.total_shares ≤ I128_MAX →
            amount * v.state.total_shares < (U128_SIZE : Int) →
            amount * v.state.total_shares / Vault.calc_total_assets v.state < 2 ^ 127 →
            sh = amount * v.state.total_shares / Vault.calc_total_assets v.state) ∧
         0 < sh)) ∧
      (v.state.total_shares ≠ 0 → Vault.calc_total_assets v.state ≠ 0 →
        v.paused = false → 0 < amount → v.min_deposit ≤ amount →
        Vault.mul_div amount v.state.total_shares (Vault.calc_total_assets v.state)
          = Except.ok sh →
        sh ≤ 0 →
        Vault.deposit v pos? now amount = Except.error Vault.Error.ZeroAmount) := by
  intro v pos? now amount sh
  constructor
  · intro h
    simp only [depShares] at h
    split at h
    case h_2 => exact Option.noConfusion h
    rename_i sh0 v1 p1 heq
    have hsh0 := Option.some.inj h
    subst hsh0
    simp only [Vault.deposit] at heq
    split at heq
    · exact Except.noConfusion heq
    split at heq
    · exact Except.noConfusion heq
    split at heq
    · exact Except.noConfusion heq
    rename_i hnp hn0 hnm
    split at heq
    · exact Except.noConfusion heq
    rename_i shares hsE
    split at heq
    · exact Except.noConfusion heq
    rename_i hpos
    split at heq
    · exact Except.noConfusion heq
    rename_i d1 hd1
    split at heq
    · exact Except.noConfusion heq
    rename_i t1 ht1
    split at heq
    · exact Except.noConfusion heq
    rename_i q1 hq1
    injection heq with heq'
    injection heq' with hshares hrest
    subst hshares
    split at hsE
    · rename_i hts
      have hsa : shares = amount := (Except.ok.inj hsE).symm
      exact ⟨fun _ => hsa, fun hne _ => absurd hts hne,
        fun hne _ _ _ _ _ _ _ => absurd hts hne, by omega⟩
    · rename_i hts
      split at hsE
      · rename_i hta
        have hsa : shares = amount := (Except.ok.inj hsE).symm
        exact ⟨fun h0 => absurd h0 hts, fun _ _ => hsa,
          fun _ htapos _ _ _ _ _ _ => absurd hta (by omega), by omega⟩
      · rename_i hta
        refine ⟨fun h0 => absurd h0 hts, fun _ h0 => absurd h0 hta, ?_, by omega⟩
        intro _ htapos ha0 hts0 haM htsM hmb hqb
        have hev := vault_mul_div_eval ha0 hts0 htapos
          (by simp only [I128_MAX, U128_SIZE] at *; omega)
          (by simp only [I128_MAX, U128_SIZE] at *; omega)
          (by
            have := (satSub_range
              (satAdd v.state.total_deposits v.state.total_interest_earned)
              v.state.protocol_reserves).2
            simp only [Vault.calc_total_assets] at *
            simp only [I128_MAX, U128_SIZE] at *
            omega)
          hmb hqb
        exact (Except.ok.inj (hsE.symm.trans hev))
  · intro hts hta hp hamt hmin hmd hsh
    simp only [Vault.deposit]
    rw [if_neg (show ¬ v.paused = true by simp [hp]),
      if_neg (show ¬ amount ≤ 0 by omega),
      if_neg (show ¬ amount < v.min_deposit by omega),
      if_neg hts, if_neg hta, hmd]
    split
    · rename_i e hcon
      exact Except.noConfusion hcon
    · rename_i shares hok
      have : shares = sh := (Except.ok.inj hok).symm
      subst this
      rw [if_pos hsh]

-- ===========================================================================
-- C8: pause gating
-- ===========================================================================

theorem vault_mul_div_error {a b c : Int} {e : Vault.Error}
    (h : Vault.mul_div a b c = Except.error e) : e = Vault.Error.Overflow := by
  unfold Vault.mul_div at h
  split at h
  · exact Except.noConfusion h
  · injection h with h1
    exact h1.symm

theorem unlock_never_paused (s : Registry.RegStore) (rid : Nat) :
    Registry.unlock s rid ≠ Except.error Registry.Error.ContractPaused := by
  intro hcon
  by_cases hb : s.hasBorrow
  · cases hr : s.receivables rid with
    | none =>
      simp [Registry.unlock, Registry.require_borrow_contract,
        Registry.get_internal, hb, hr] at hcon
    | some r =>
      by_cases hst : r.status = Registry.ReceivableStatus.Collateralized
      · simp [Registry.unlock, Registry.require_borrow_contract,
          Registry.get_internal, hb, hr, hst] at hcon
      · simp [Registry.unlock, Registry.require_borrow_contract,
          Registry.get_internal, hb, hr, hst] at hcon
  · simp [Registry.unlock, Registry.require_borrow_contract, hb] at hcon

theorem settle_never_paused (s : Registry.RegStore) (rid : Nat) :
    Registry.settle s rid ≠ Except.error Registry.Error.ContractPaused := by
  intro hcon
  cases hr : s.receivables rid with
  | none => simp [Registry.settle, Registry.get_internal, hr] at hcon
  | some r =>
    by_cases h1 : r.status = Registry.ReceivableStatus.Active
    · simp [Registry.settle, Registry.get_internal, hr, h1] at hcon
    · by_cases h2 : r.status = Registry.ReceivableStatus.Matured
      · simp [Registry.settle, Registry.get_internal, hr, h1, h2] at hcon
      · simp [Registry.settle, Registry.get_internal, hr, h1, h2] at hcon

theorem mark_default_never_paused (s : Registry.RegStore) (rid : Nat) :
    Registry.mark_default s rid ≠ Except.error Registry.Error.ContractPaused := by
  intro hcon
  cases hr : s.receivables rid with
  | none => simp [Registry.mark_default, Registry.get_internal, hr] at hcon
  | some r => simp [Registry.mark_default, Registry.get_internal, hr] at hcon

theorem vault_repay_never_paused (v : Vault.VaultStore) (p i : Int) :
    Vault.repay v p i ≠ Except.error Vault.Error.ContractPaused := by
  intro hcon
  by_cases hb : v.hasBorrow
  · simp only [Vault.repay, hb, Bool.not_true, Bool.false_eq_true, if_false] at hcon
    cases h1 : checkedAdd p i with
    | none => simp [h1] at hcon
    | some tp =>
      simp only [h1] at hcon
      cases h2 : Vault.mul_div i v.state.reserve_factor 10000 with
      | error e =>
        simp only [h2] at hcon
        have := vault_mul_div_error h2
        subst this
        simp at hcon
      | ok ps =>
        simp only [h2] at hcon
        cases h3 : checkedSub i ps with
        | none => simp [h3] at hcon
        | some lp =>
          simp only [h3] at hcon
          cases h4 : checkedSub v.state.total_borrowed p with
          | none => simp [h4] at hcon
          | some tb =>
            simp only [h4] at hcon
            cases h5 : checkedAdd v.state.total_deposits lp with
            | none => simp [h5] at hcon
            | some td =>
              simp only [h5] at hcon
              cases h6 : checkedAdd v.state.total_interest_earned i with
              | none => simp [h6] at hcon
              | some tie =>
                simp only [h6] at hcon
                cases h7 : checkedAdd v.state.protocol_reserves ps with
                | none => simp [h7] at hcon
                | some pr =>
                  simp only [h7] at hcon
                  exact Except.noConfusion hcon
  · simp [Vault.repay, hb] at hcon

theorem vault_liq_recv_never_paused (v : Vault.VaultStore) (r s : Int) :
    Vault.liq_recv v r s ≠ Except.error Vault.Error.ContractPaused := by
  intro hcon
  by_cases hb : v.hasBorrow
  · simp only [Vault.liq_recv, hb, Bool.not_true, Bool.false_eq_true, if_false] at hcon
    cases h1 : checkedAdd r s with
    | none => simp [h1] at hcon
    | some tc =>
      simp only [h1] at hcon
      by_cases h2 : r > 0
      · simp only [if_pos h2] at hcon
        cases h3 : checkedAdd v.state.total_deposits r with
        | none => simp [h3] at hcon
        | some td =>
          simp only [h3] at hcon
          exact Except.noConfusion hcon
      · simp only [if_neg h2] at hcon
        exact Except.noConfusion hcon
  · simp [Vault.liq_recv, hb] at hcon

/-- C8 counterexample: in the paused registry store regC8 (paused = true,
one Collateralized receivable), unlock succeeds and mutates the receivable
back to Active instead of failing with contract-paused; the registry unlock
entry point performs no pause check. -/
theorem paused_unlock_counterexample :
    regC8.paused = true ∧
    Registry.regOk (Registry.unlock regC8 1) = true ∧
    Registry.statusOf (Registry.regRun regC8 (Registry.unlock regC8 1)) 1
      = some Registry.ReceivableStatus.Active ∧
    Registry.statusOf regC8 1 = some Registry.ReceivableStatus.Collateralized := by
  exact ⟨rfl, rfl, rfl, rfl⟩

/-- C8 (amended): pausing gates the Registry entry points mint, lock and
transfer, the Vault entry points deposit, withdraw and disburse, and the
Borrow Engine entry points borrow, repay_loan and liquidate, each of which
fails with a contract-paused error when its component is paused; but the
Registry entry points unlock, settle and mark_default and the Vault entry
points repay and liq_recv perform no pause check and never return a
contract-paused error; read-only operations such as get_recv are never
blocked by pausing. -/
theorem pause_gating_amended :
    (∀ (s : Registry.RegStore) (now creditor dh : Nat) (fv : Int)
        (cur md zk rs mu : Nat), s.paused = true →
        Registry.mint s now creditor dh fv cur md zk rs mu
          = Except.error Registry.Error.ContractPaused) ∧
    (∀ (s : Registry.RegStore) (rid : Nat), s.paused = true →
        Registry.lock s rid = Except.error Registry.Error.ContractPaused) ∧
    (∀ (s : Registry.RegStore) (rid f t : Nat), s.paused = true →
        Registry.transfer s rid f t = Except.error Registry.Error.ContractPaused) ∧
    (∀ (v : Vault.VaultStore) (pos? : Option Vault.LPPosition) (now : Nat)
        (amount : Int), v.paused = true →
        Vault.deposit v pos? now amount = Except.error Vault.Error.ContractPaused) ∧
    (∀ (v : Vault.VaultStore) (pos? : Option Vault.LPPosition) (s : Int),
        v.paused = true →
        Vault.withdraw v pos? s = Except.error Vault.Error.ContractPaused) ∧
    (∀ (v : Vault.VaultStore) (a : Int), v.paused = true →
        Vault.disburse v a = Except.error Vault.Error.ContractPaused) ∧
    (∀ (σ : Sys) (b : Nat) (rids : List Nat) (amt : Int) (dur : Nat),
        σ.paused = true →
        Borrow.borrow σ b rids amt dur
          = Except.error (XError.bor Borrow.Error.ContractPaused)) ∧
    (∀ (σ : Sys) (b lid : Nat) (amt : Int), σ.paused = true →
        Borrow.repay_loan σ b lid amt
          = Except.error (XError.bor Borrow.Error.ContractPaused)) ∧
    (∀ (σ : Sys) (liq lid : Nat), σ.paused = true →
        Borrow.liquidate σ liq lid
          = Except.error (XError.bor Borrow.Error.ContractPaused)) ∧
    (∀ (s : Registry.RegStore) (rid : Nat),
        Registry.unlock s rid ≠ Except.error Registry.Error.ContractPaused) ∧
    (∀ (s : Registry.RegStore) (rid : Nat),
        Registry.settle s rid ≠ Except.error Registry.Error.ContractPaused) ∧
    (∀ (s : Registry.RegStore) (rid : Nat),
        Registry.mark_default s rid ≠ Except.error Registry.Error.ContractPaused) ∧
    (∀ (v : Vault.VaultStore) (p i : Int),
        Vault.repay v p i ≠ Except.error Vault.Error.ContractPaused) ∧
    (∀ (v : Vault.VaultStore) (r s : Int),
        Vault.liq_recv v r s ≠ Except.error Vault.Error.ContractPaused) ∧
    (∀ (s : Registry.RegStore) (rid : Nat) (p : Bool),
        Registry.get_recv { s with paused := p } rid = Registry.get_recv s rid) := by
  refine ⟨?_, ?_, ?_, ?_, ?_, ?_, ?_, ?_, ?_,
    unlock_never_paused, settle_never_paused, mark_default_never_paused,
    vault_repay_never_paused, vault_liq_recv_never_paused, ?_⟩
  · intro s now c dh fv cur md zk rs mu hp
    simp [Registry.mint, Registry.require_not_paused, hp]
  · intro s rid hp
    simp [Registry.lock, Registry.require_not_paused, hp]
  · intro s rid f t hp
    simp [Registry.transfer, Registry.require_not_paused, hp]
  · intro v pos? now amount hp
    simp [Vault.deposit, hp]
  · intro v pos? s hp
    simp [Vault.withdraw, hp]
  · intro v a hp
    simp [Vault.disburse, hp]
  · intro σ b rids amt dur hp
    simp [Borrow.borrow, hp]
  · intro σ b lid amt hp
    simp [Borrow.repay_loan, hp]
  · intro σ liq lid hp
    simp [Borrow.liquidate, hp]
  · intro s rid p
    simp [Registry.get_recv, Registry.get_internal]

/-- Witness for the amended C8 at concrete paused stores: the gated entry
points fail with contract-paused while unlock succeeds on the paused
registry regC8. -/
theorem pause_gating_amended_witness :
    Registry.lock regC8 1 = Except.error Registry.Error.ContractPaused ∧
    Vault.deposit vltPaused none 0 5 = Except.error Vault.Error.ContractPaused ∧
    Vault.withdraw vltPaused none 5 = Except.error Vault.Error.ContractPaused ∧
    Vault.disburse vltPaused 5 = Except.error Vault.Error.ContractPaused ∧
    Borrow.borrow sysPaused 7 [1] 100 100
      = Except.error (XError.bor Borrow.Error.ContractPaused) ∧
    Borrow.repay_loan sysPaused 7 1 100
      = Except.error (XError.bor Borrow.Error.ContractPaused) ∧
    Borrow.liquidate sysPaused 7 1
      = Except.error (XError.bor Borrow.Error.ContractPaused) ∧
    Registry.unlock regC8 1 ≠ Except.error Registry.Error.ContractPaused := by
  refine ⟨pause_gating_amended.2.1 regC8 1 rfl,
    pause_gating_amended.2.2.2.1 vltPaused none 0 5 rfl,
    pause_gating_amended.2.2.2.2.1 vltPaused none 5 rfl,
    pause_gating_amended.2.2.2.2.2.1 vltPaused 5 rfl,
    pause_gating_amended.2.2.2.2.2.2.1 sysPaused 7 [1] 100 100 rfl,
    pause_gating_amended.2.2.2.2.2.2.2.1 sysPaused 7 1 100 rfl,
    pause_gating_amended.2.2.2.2.2.2.2.2.1 sysPaused 7 1 rfl,
    pause_gating_amended.2.2.2.2.2.2.2.2.2.1 regC8 1⟩

-- ===========================================================================
-- C3: interest accrual
-- ===========================================================================

/-- C3: accrue computes elapsed = now − last_interest_update saturating at
zero, so a clock regression (now ≤ last_interest_update) is a no-op; when
elapsed is positive and the widened product does not overflow, it adds
exactly floor(principal * rate_bps * elapsed / (31557600 * 10000)) to
accrued_interest and sets last_interest_update to now. -/
theorem accrue_simple_interest :
    ∀ (now : Nat) (loan : Borrow.Loan),
      loan.status = Borrow.LoanStatus.Active →
      0 ≤ loan.principal → loan.principal ≤ I128_MAX →
      0 ≤ loan.interest_rate → loan.interest_rate ≤ I128_MAX →
      ((now ≤ loan.last_interest_update → Borrow.accrue now loan = Except.ok loan) ∧
       (∀ e : Nat, e = now - loan.last_interest_update → 0 < e →
          loan.principal * loan.interest_rate * (e : Int) < (U128_SIZE : Int) →
          i128Ok (loan.accrued_interest +
            loan.principal * loan.interest_rate * (e : Int)
              / ((Borrow.SECONDS_PER_YEAR : Int) * 10000)) = true →
          Borrow.accrue now loan = Except.ok
            { loan with
              accrued_interest := loan.accrued_interest +
                loan.principal * loan.interest_rate * (e : Int)
                  / ((Borrow.SECONDS_PER_YEAR : Int) * 10000),
              last_interest_update := now })) := by
  intro now loan _hst h0p hpM h0r hrM
  constructor
  · intro hle
    have h0 : now - loan.last_interest_update = 0 := Nat.sub_eq_zero_of_le hle
    simp [Borrow.accrue, h0]
  · intro e hedef hepos hmul hok
    have hplt : loan.principal < (U128_SIZE : Int) := by
      simp only [I128_MAX, U128_SIZE] at *
      omega
    have hrlt : loan.interest_rate < (U128_SIZE : Int) := by
      simp only [I128_MAX, U128_SIZE] at *
      omega
    have hcp : (toU128 loan.principal : Int) = loan.principal := toU128_eq h0p hplt
    have hcr : (toU128 loan.interest_rate : Int) = loan.interest_rate :=
      toU128_eq h0r hrlt
    have hm2 : ((toU128 loan.principal * toU128 loan.interest_rate : Nat) : Int)
        = loan.principal * loan.interest_rate := by
      push_cast
      rw [hcp, hcr]
    have hm3 : ((toU128 loan.principal * toU128 loan.interest_rate * e : Nat) : Int)
        = loan.principal * loan.interest_rate * (e : Int) := by
      push_cast
      rw [hcp, hcr]
    have hple : loan.principal * loan.interest_rate
        ≤ loan.principal * loan.interest_rate * (e : Int) :=
      le_mul_of_one_le_right (mul_nonneg h0p h0r) (by exact_mod_cast hepos)
    have hm2lt : toU128 loan.principal * toU128 loan.interest_rate < U128_SIZE := by
      simp only [U128_SIZE] at *
      omega
    have hm3lt : toU128 loan.principal * toU128 loan.interest_rate * e
        < U128_SIZE := by
      simp only [U128_SIZE] at *
      omega
    have h1 : u128CheckedMul (toU128 loan.principal) (toU128 loan.interest_rate)
        = some (toU128 loan.principal * toU128 loan.interest_rate) := by
      unfold u128CheckedMul
      rw [if_pos hm2lt]
    have h2 : u128CheckedMul (toU128 loan.principal * toU128 loan.interest_rate) e
        = some (toU128 loan.principal * toU128 loan.interest_rate * e) := by
      unfold u128CheckedMul
      rw [if_pos hm3lt]
    have hqlt : toU128 loan.principal * toU128 loan.interest_rate * e
        / (Borrow.SECONDS_PER_YEAR * 10000) < 2 ^ 127 := by
      simp only [Borrow.SECONDS_PER_YEAR, U128_SIZE] at *
      omega
    have hq : ((toU128 loan.principal * toU128 loan.interest_rate * e
          / (Borrow.SECONDS_PER_YEAR * 10000) : Nat) : Int)
        = loan.principal * loan.interest_rate * (e : Int)
          / ((Borrow.SECONDS_PER_YEAR : Int) * 10000) := by
      rw [Int.ofNat_ediv, hm3]
      norm_num
    have hofq : ofU128 (toU128 loan.principal * toU128 loan.interest_rate * e
          / (Borrow.SECONDS_PER_YEAR * 10000))
        = loan.principal * loan.interest_rate * (e : Int)
          / ((Borrow.SECONDS_PER_YEAR : Int) * 10000) := by
      rw [ofU128_eq hqlt, hq]
    simp only [Borrow.accrue]
    rw [← hedef, if_neg (show ¬ e = 0 by omega)]
    simp only [h1, h2, hofq, checkedAdd_eq_some hok]

/-- Witness for C3 at the spec scenario: a loan of principal 1,000,000 at
1000 bps accrues exactly 100,000 over one year of 31,557,600 seconds. -/
theorem accrue_simple_interest_witness :
    Borrow.accrue 31557600 loanC3 = Except.ok
      { loanC3 with accrued_interest := 100000,
                    last_interest_update := 31557600 } := by
  have h := (accrue_simple_interest 31557600 loanC3 rfl (by decide) (by decide)
      (by decide) (by decide)).2 31557600 (by decide) (by decide)
      (by decide) (by decide)
  rw [h]
  congr 1

-- ===========================================================================
-- C2: collateral discounting and the LTV check
-- ===========================================================================

theorem lockAll_error_shape :
    ∀ (l : List Nat) (reg : Registry.RegStore) (e : XError),
      Borrow.lockAll reg l = Except.error e → ∃ e2, e = XError.reg e2 := by
  intro l
  induction l with
  | nil =>
    intro reg e h
    exact Except.noConfusion h
  | cons rid rest ih =>
    intro reg e h
    simp only [Borrow.lockAll] at h
    split at h
    · injection h with h1
      exact ⟨_, h1.symm⟩
    · exact ih _ e h

/-- C2 counterexample: the claim asserts the effective basis points are
floored at zero, so the receivable of sysC2 (face value 1, risk score 20000,
risk_discount_factor 10000) would contribute 0 collateral and any positive
borrow would fail with LTV-exceeded. The code instead computes the effective
bps with a plain saturating i128 subtraction (−10000 here), which wraps
through the unsigned mul_div into an astronomically large collateral value,
and borrow(1000) succeeds. -/
theorem borrow_risk_floor_counterexample :
    sysC2.reg.receivables 1
      = some (mkRecv 1 7 1 20000 Registry.ReceivableStatus.Active) ∧
    discountedValueSpec 1 20000 sysC2.config.risk_discount_factor = 0 ∧
    (0 : Int) * sysC2.config.max_ltv / 10000 = 0 ∧
    (1000 : Int) > 0 ∧
    callResult (Borrow.borrow sysC2 7 [1] 1000 100) = some 1 := by
  exact ⟨rfl, rfl, rfl, by decide, rfl⟩

/-- C2 (amended): each receivable's collateral contribution is
discounted_value = floor(face_value * (10000 − floor(risk_score *
risk_discount_factor / 10000)) / 10000), where the effective basis points
are computed by saturating i128 subtraction without a floor at zero (the
formula shown therefore requires risk_discount ≤ 10000); contributions are
summed with overflow checks; and the call fails with LTV-exceeded exactly
when borrow_amount > floor(total_collateral * max_ltv / 10000). -/
theorem borrow_ltv_amended :
    (∀ (σ : Sys) (borrower : Nat) (acc : Int) (rid : Nat)
        (r : Registry.Receivable),
        σ.reg.receivables rid = some r → r.owner = borrower →
        r.status = Registry.ReceivableStatus.Active →
        0 ≤ r.face_value → r.face_value ≤ I128_MAX →
        0 ≤ σ.config.risk_discount_factor →
        σ.config.risk_discount_factor ≤ I128_MAX →
        (r.risk_score : Int) < 2 ^ 32 →
        (r.risk_score : Int) * σ.config.risk_discount_factor < 2 ^ 127 →
        (r.risk_score : Int) * σ.config.risk_discount_factor / 10000 ≤ 10000 →
        r.face_value *
          (10000 - (r.risk_score : Int) * σ.config.risk_discount_factor / 10000)
          < 2 ^ 127 →
        i128Ok (acc + r.face_value *
          (10000 - (r.risk_score : Int) * σ.config.risk_discount_factor / 10000)
          / 10000) = true →
        Borrow.collatStep σ borrower acc rid = Except.ok
          (acc + r.face_value *
            (10000 - (r.risk_score : Int) * σ.config.risk_discount_factor / 10000)
            / 10000)) ∧
    (∀ (σ : Sys) (borrower : Nat) (rids : List Nat) (amount : Int)
        (duration : Nat) (tc : Int),
        σ.paused = false → 0 < amount → ¬ duration = 0 →
        duration ≤ σ.config.max_loan_duration →
        Borrow.collatLoop σ borrower 0 rids = Except.ok tc →
        0 ≤ tc → tc ≤ I128_MAX →
        0 ≤ σ.config.max_ltv → σ.config.max_ltv ≤ I128_MAX →
        tc * σ.config.max_ltv < 2 ^ 127 →
        (Borrow.borrow σ borrower rids amount duration
            = Except.error (XError.bor Borrow.Error.LTVExceeded)
          ↔ tc * σ.config.max_ltv / 10000 < amount)) := by
  constructor
  · intro σ borrower acc rid r hr hown hst hfv0 hfvM hrdf0 hrdfM hrs hprod
      hdisc hfprod hok
    have hrs0 : (0 : Int) ≤ (r.risk_score : Int) := by positivity
    have hrd0 : (0 : Int) ≤
        (r.risk_score : Int) * σ.config.risk_discount_factor / 10000 :=
      Int.ediv_nonneg (mul_nonneg hrs0 hrdf0) (by norm_num)
    have hrdlt : (r.risk_score : Int) * σ.config.risk_discount_factor / 10000
        < 2 ^ 127 := by
      have := Int.ediv_le_self 10000 (mul_nonneg hrs0 hrdf0)
      omega
    have h1 : Borrow.mul_div (r.risk_score : Int) σ.config.risk_discount_factor
        10000 = Except.ok
          ((r.risk_score : Int) * σ.config.risk_discount_factor / 10000) :=
      borrow_mul_div_eval hrs0 hrdf0 (by norm_num)
        (by simp only [U128_SIZE]; push_cast; omega)
        (by simp only [I128_MAX, U128_SIZE] at *; omega)
        (by simp only [U128_SIZE]; norm_num)
        (by simp only [U128_SIZE]; omega) hrdlt
    have hsat : satSub 10000
        ((r.risk_score : Int) * σ.config.risk_discount_factor / 10000)
        = 10000 - (r.risk_score : Int) * σ.config.risk_discount_factor / 10000 := by
      simp only [satSub, I128_MIN, I128_MAX]
      omega
    have heff0 : (0 : Int) ≤
        10000 - (r.risk_score : Int) * σ.config.risk_discount_factor / 10000 := by
      omega
    have hdq : r.face_value *
        (10000 - (r.risk_score : Int) * σ.config.risk_discount_factor / 10000)
        / 10000 < 2 ^ 127 := by
      have := Int.ediv_le_self 10000 (mul_nonneg hfv0 heff0)
      omega
    have h2 : Borrow.mul_div r.face_value
        (10000 - (r.risk_score : Int) * σ.config.risk_discount_factor / 10000)
        10000 = Except.ok (r.face_value *
          (10000 - (r.risk_score : Int) * σ.config.risk_discount_factor / 10000)
          / 10000) :=
      borrow_mul_div_eval hfv0 heff0 (by norm_num)
        (by simp only [I128_MAX, U128_SIZE] at *; omega)
        (by simp only [U128_SIZE]; omega)
        (by simp only [U128_SIZE]; norm_num)
        (by simp only [U128_SIZE]; omega) hdq
    simp only [Borrow.collatStep, Registry.get_recv, Registry.get_internal, hr]
    rw [if_neg (by simp [hown]), if_neg (by simp [hst])]
    simp only [h1, hsat, h2, checkedAdd_eq_some hok]
  · intro σ borrower rids amount duration tc hp hamt hd0 hdM hloop htc0 htcM
      hltv0 hltvM hprod
    have hmbq : tc * σ.config.max_ltv / 10000 < 2 ^ 127 := by
      have := Int.ediv_le_self 10000 (mul_nonneg htc0 hltv0)
      omega
    have hmb : Borrow.mul_div tc σ.config.max_ltv 10000
        = Except.ok (tc * σ.config.max_ltv / 10000) :=
      borrow_mul_div_eval htc0 hltv0 (by norm_num)
        (by simp only [I128_MAX, U128_SIZE] at *; omega)
        (by simp only [I128_MAX, U128_SIZE] at *; omega)
        (by simp only [U128_SIZE]; norm_num)
        (by simp only [U128_SIZE]; omega) hmbq
    have hdur : ¬ (duration = 0 ∨ duration > σ.config.max_loan_duration) := by
      push_neg
      exact ⟨hd0, by omega⟩
    constructor
    · intro h
      by_contra hcon
      push_neg at hcon
      simp only [Borrow.borrow] at h
      rw [if_neg (by simp [hp]), if_neg (show ¬ amount ≤ 0 by omega),
        if_neg hdur] at h
      simp only [hloop, hmb] at h
      rw [if_neg (show ¬ amount > tc * σ.config.max_ltv / 10000 by omega)] at h
      cases hl : Borrow.lockAll σ.reg rids with
      | error e =>
        simp only [hl] at h
        injection h with h1
        obtain ⟨e2, rfl⟩ := lockAll_error_shape rids σ.reg e hl
        exact XError.noConfusion h1
      | ok reg1 =>
        simp only [hl] at h
        cases hv : Vault.disburse σ.vault amount with
        | error ev =>
          simp only [hv] at h
          injection h with h1
          exact XError.noConfusion h1
        | ok v1 =>
          simp only [hv] at h
          exact Except.noConfusion h
    · intro hlt
      simp only [Borrow.borrow]
      rw [if_neg (by simp [hp]), if_neg (show ¬ amount ≤ 0 by omega),
        if_neg hdur]
      simp only [hloop, hmb]
      rw [if_pos (show amount > tc * σ.config.max_ltv / 10000 by omega)]

/-- Witness for the amended C2 at the spec scenario (max_ltv 7000,
risk_discount_factor 0, one receivable of face value 1,000,000 and risk
score 0): the receivable contributes exactly 1,000,000, borrowing 700,001
fails with LTV-exceeded, and borrowing 700,000 succeeds. -/
theorem borrow_ltv_amended_witness :
    Borrow.collatStep sysS 7 0 1 = Except.ok 1000000 ∧
    Borrow.borrow sysS 7 [1] 700001 31557600
      = Except.error (XError.bor Borrow.Error.LTVExceeded) ∧
    callResult (Borrow.borrow sysS 7 [1] 700000 31557600) = some 1 := by
  have hstep := borrow_ltv_amended.1 sysS 7 0 1
    (mkRecv 1 7 1000000 0 Registry.ReceivableStatus.Active) rfl rfl rfl
    (by decide) (by decide) (by decide) (by decide) (by decide) (by decide)
    (by decide) (by decide) (by decide)
  refine ⟨?_, ?_, rfl⟩
  · rw [hstep]
    congr 1
  · exact (borrow_ltv_amended.2 sysS 7 [1] 700001 31557600 1000000 rfl
      (by decide) (by decide) (by decide) (by rfl) (by decide) (by decide)
      (by decide) (by decide) (by decide)).mpr (by decide)

-- ===========================================================================
-- C4: repayment allocation
-- ===========================================================================

theorem accrue_ok_fields {now : Nat} {l l2 : Borrow.Loan}
    (h : Borrow.accrue now l = Except.ok l2) :
    l2.status = l.status ∧ l2.receivable_ids = l.receivable_ids ∧
    l2.principal = l.principal ∧ l2.borrower = l.borrower ∧
    l2.collateral_value = l.collateral_value ∧ l2.due_date = l.due_date ∧
    l2.interest_rate = l.interest_rate := by
  simp only [Borrow.accrue] at h
  split at h
  · injection h with h1
    subst h1
    exact ⟨rfl, rfl, rfl, rfl, rfl, rfl, rfl⟩
  · split at h
    · exact Except.noConfusion h
    · split at h
      · exact Except.noConfusion h
      · split at h
        · exact Except.noConfusion h
        · injection h with h1
          subst h1
          exact ⟨rfl, rfl, rfl, rfl, rfl, rfl, rfl⟩

theorem unlock_ok_inv {reg s2 : Registry.RegStore} {rid : Nat}
    (h : Registry.unlock reg rid = Except.ok s2) :
    ∃ r, reg.receivables rid = some r ∧
      (∀ j, s2.receivables j =
        if j = rid then some { r with status := Registry.ReceivableStatus.Active }
        else reg.receivables j) ∧
      s2.paused = reg.paused ∧ s2.hasBorrow = reg.hasBorrow := by
  simp only [Registry.unlock, Registry.require_borrow_contract] at h
  split at h
  · exact Except.noConfusion h
  · split at h
    · exact Except.noConfusion h
    · rename_i recv heq
      split at h
      · exact Except.noConfusion h
      · injection h with h1
        subst h1
        have hr : reg.receivables rid = some recv := by
          simp only [Registry.get_internal] at heq
          split at heq
          · rename_i hr2
            rw [hr2, Except.ok.inj heq]
          · exact Except.noConfusion heq
        exact ⟨recv, hr, fun j => rfl, rfl, rfl⟩

theorem unlockAll_statuses :
    ∀ (l : List Nat) (reg reg2 : Registry.RegStore),
      Borrow.unlockAll reg l = Except.ok reg2 →
      (∀ rid ∈ l, Registry.statusOf reg2 rid
        = some Registry.ReceivableStatus.Active) ∧
      (∀ j, j ∉ l → reg2.receivables j = reg.receivables j) := by
  intro l
  induction l with
  | nil =>
    intro reg reg2 h
    simp only [Borrow.unlockAll] at h
    injection h with h1
    subst h1
    exact ⟨by simp, fun j _ => rfl⟩
  | cons rid rest ih =>
    intro reg reg2 h
    simp only [Borrow.unlockAll] at h
    split at h
    · exact Except.noConfusion h
    · rename_i s2 hu
      obtain ⟨r, hr, hpt, _, _⟩ := unlock_ok_inv hu
      obtain ⟨hstat, hunch⟩ := ih s2 reg2 h
      constructor
      · intro rid2 hm
        rcases List.mem_cons.mp hm with hm1 | hm2
        · subst hm1
          by_cases hin : rid2 ∈ rest
          · exact hstat rid2 hin
          · have := hunch rid2 hin
            rw [Registry.statusOf, this, hpt rid2, if_pos rfl]
            rfl
        · exact hstat rid2 hm2
      · intro j hj
        have hj1 : j ≠ rid := fun hcon => hj (hcon ▸ List.mem_cons_self rid rest)
        have hj2 : j ∉ rest := fun hcon => hj (List.mem_cons_of_mem rid hcon)
        rw [hunch j hj2, hpt j, if_neg hj1]

/-- C4: for every successful repay_loan with post-accrual loan state `loan`,
payment = min(amount, principal + accrued_interest), interest is paid before
principal (interest_pay = min(payment, accrued_interest),
principal_pay = payment − interest_pay), the stored loan balances decrease
by exactly those amounts, and the returned value is the remaining
principal + accrued_interest; an amount at least the total owed clears the
debt entirely; a zero remainder flips the loan to Repaid and unlocks every
receivable of the loan, while a nonzero remainder leaves the loan Active
(its pre-accrual status) and the registry — including every Collateralized
receivable — untouched. -/
theorem repay_loan_allocation :
    ∀ (σ : Sys) (borrower loan_id : Nat) (amount : Int)
      (loan0 loan : Borrow.Loan) (rem : Int) (σ2 : Sys),
      σ.loans loan_id = some loan0 →
      Borrow.accrue σ.now loan0 = Except.ok loan →
      Borrow.repay_loan σ borrower loan_id amount = Except.ok (rem, σ2) →
      (rem = loan.principal + loan.accrued_interest
        - min amount (loan.principal + loan.accrued_interest) ∧
       (loan.principal + loan.accrued_interest ≤ amount → rem = 0) ∧
       loan.status = loan0.status ∧
       (rem = 0 →
          σ2.loans loan_id = some { loan with
            principal := loan.principal
              - (min amount (loan.principal + loan.accrued_interest)
                 - min (min amount (loan.principal + loan.accrued_interest))
                     loan.accrued_interest),
            accrued_interest := loan.accrued_interest
              - min (min amount (loan.principal + loan.accrued_interest))
                  loan.accrued_interest,
            status := Borrow.LoanStatus.Repaid } ∧
          (∀ rid ∈ loan.receivable_ids,
            Registry.statusOf σ2.reg rid
              = some Registry.ReceivableStatus.Active)) ∧
       (rem ≠ 0 →
          σ2.loans loan_id = some { loan with
            principal := loan.principal
              - (min amount (loan.principal + loan.accrued_interest)
                 - min (min amount (loan.principal + loan.accrued_interest))
                     loan.accrued_interest),
            accrued_interest := loan.accrued_interest
              - min (min amount (loan.principal + loan.accrued_interest))
                  loan.accrued_interest } ∧
          σ2.reg = σ.reg)) := by
  intro σ borrower loan_id amount loan0 loan rem σ2 hlookup haccrue h
  simp only [Borrow.repay_loan] at h
  split at h
  · exact Except.noConfusion h
  split at h
  · exact Except.noConfusion h
  split at h
  · exact Except.noConfusion h
  rename_i loan0' heq0
  have hl0 : loan0' = loan0 := by
    simp only [Borrow.get_internal, hlookup] at heq0
    exact (Except.ok.inj heq0).symm
  subst hl0
  split at h
  · exact Except.noConfusion h
  rename_i hst0
  split at h
  · exact Except.noConfusion h
  split at h
  · exact Except.noConfusion h
  rename_i loan' heqA
  have hl : loan' = loan := (Except.ok.inj (haccrue.symm.trans heqA)).symm
  subst hl
  have hstat := accrue_ok_fields heqA
  split at h
  · exact Except.noConfusion h
  rename_i total_owed htot
  have htot' := checkedAdd_some htot
  split at h
  · exact Except.noConfusion h
  rename_i ppay hppay
  have hppay' := checkedSub_some hppay
  split at h
  · exact Except.noConfusion h
  rename_i vault1 hvault
  split at h
  · exact Except.noConfusion h
  rename_i p1 hp1
  have hp1' := checkedSub_some hp1
  split at h
  · exact Except.noConfusion h
  rename_i i1 hi1
  have hi1' := checkedSub_some hi1
  split at h
  · exact Except.noConfusion h
  rename_i rem' hrem
  have hrem' := checkedAdd_some hrem
  split at h
  · -- remaining = 0: receivables are unlocked
    rename_i hrz
    split at h
    · exact Except.noConfusion h
    rename_i reg1 hunl
    injection h with h1
    injection h1 with hfst hsnd
    subst hfst
    subst hsnd
    obtain ⟨hstatuses, -⟩ := unlockAll_statuses _ _ _ hunl
    refine ⟨by omega, by omega, hstat.1, ?_, by omega⟩
    intro _
    constructor
    · have e1 : p1 = loan'.principal
          - (min amount (loan'.principal + loan'.accrued_interest)
             - min (min amount (loan'.principal + loan'.accrued_interest))
                 loan'.accrued_interest) := by omega
      have e2 : i1 = loan'.accrued_interest
          - min (min amount (loan'.principal + loan'.accrued_interest))
              loan'.accrued_interest := by omega
      subst e1
      subst e2
      simp [Borrow.setLoan]
    · intro rid hm
      exact hstatuses rid hm
  · -- remaining ≠ 0: partial payment, registry untouched
    rename_i hrz
    injection h with h1
    injection h1 with hfst hsnd
    subst hfst
    subst hsnd
    refine ⟨by omega, by omega, hstat.1, by omega, ?_⟩
    intro _
    constructor
    · have e1 : p1 = loan'.principal
          - (min amount (loan'.principal + loan'.accrued_interest)
             - min (min amount (loan'.principal + loan'.accrued_interest))
                 loan'.accrued_interest) := by omega
      have e2 : i1 = loan'.accrued_interest
          - min (min amount (loan'.principal + loan'.accrued_interest))
              loan'.accrued_interest := by omega
      subst e1
      subst e2
      simp [Borrow.setLoan]
    · rfl

/-- Witness for C4 at a concrete system: loan 1 (principal 1000 at 1000 bps,
one year elapsed, so 100 interest accrues) is repaid with 2000 > 1100 owed;
the payment clamps to 1100, the remainder is 0, the loan becomes Repaid and
the collateralized receivable is unlocked. -/
theorem repay_loan_allocation_witness :
    Borrow.repay_loan sysC4 7 1 2000
      = Except.ok (0, runAtomic sysC4 (Borrow.repay_loan sysC4 7 1 2000)) ∧
    (0 : Int) = (1000 + 100) - min 2000 (1000 + 100) ∧
    (runAtomic sysC4 (Borrow.repay_loan sysC4 7 1 2000)).loans 1
      = some { loanC4 with
          principal := 0, accrued_interest := 0,
          last_interest_update := 31557600,
          status := Borrow.LoanStatus.Repaid } ∧
    Registry.statusOf (runAtomic sysC4 (Borrow.repay_loan sysC4 7 1 2000)).reg 1
      = some Registry.ReceivableStatus.Active := by
  have hacc : Borrow.accrue sysC4.now loanC4 = Except.ok
      { loanC4 with accrued_interest := 100, last_interest_update := 31557600 } := rfl
  have hrun : Borrow.repay_loan sysC4 7 1 2000
      = Except.ok (0, runAtomic sysC4 (Borrow.repay_loan sysC4 7 1 2000)) := rfl
  have h := repay_loan_allocation sysC4 7 1 2000 loanC4
    { loanC4 with accrued_interest := 100, last_interest_update := 31557600 }
    0 (runAtomic sysC4 (Borrow.repay_loan sysC4 7 1 2000)) rfl hacc hrun
  exact ⟨hrun, by omega, rfl, (h.2.2.2.1 rfl).2 1 (by decide)⟩

-- ===========================================================================
-- C5: liquidation economics
-- ===========================================================================

theorem unlock_ok_eval (reg : Registry.RegStore) (rid : Nat)
    (r : Registry.Receivable) (hb : reg.hasBorrow = true)
    (hr : reg.receivables rid = some r)
    (hst : r.status = Registry.ReceivableStatus.Collateralized) :
    Registry.unlock reg rid = Except.ok (Registry.setRecv reg rid
      { r with status := Registry.ReceivableStatus.Active }) := by
  simp [Registry.unlock, Registry.require_borrow_contract,
    Registry.get_internal, hb, hr, hst]

theorem transfer_ok_char (s : Registry.RegStore) (rid f t : Nat)
    (r : Registry.Receivable) (hp : s.paused = false)
    (hr : s.receivables rid = some r) (hown : r.owner = f)
    (hst : r.status = Registry.ReceivableStatus.Active) :
    ∃ s2, Registry.transfer s rid f t = Except.ok s2 ∧
      (∀ j, s2.receivables j =
        if j = rid then some { r with owner := t } else s.receivables j) ∧
      s2.paused = s.paused ∧ s2.hasBorrow = s.hasBorrow := by
  have h : Registry.transfer s rid f t = Except.ok
      (Registry.setRecv
        (Registry.setOwnerIndex
          (Registry.setOwnerIndex s f
            ((s.owner_index f).filter (fun x => x ≠ rid)))
          t
          (((Registry.setOwnerIndex s f
            ((s.owner_index f).filter (fun x => x ≠ rid))).owner_index t)
            ++ [rid]))
        rid { r with owner := t }) := by
    simp [Registry.transfer, Registry.require_not_paused,
      Registry.get_internal, hp, hr, hown, hst]
  exact ⟨_, h, fun j => by simp [Registry.setRecv, Registry.setOwnerIndex],
    rfl, rfl⟩

theorem seizeAll_ok :
    ∀ (l : List Nat) (reg : Registry.RegStore) (borrower liq : Nat),
      reg.paused = false → reg.hasBorrow = true → l.Nodup →
      (∀ rid ∈ l, ∃ r, reg.receivables rid = some r ∧
        r.status = Registry.ReceivableStatus.Collateralized ∧
        r.owner = borrower) →
      ∃ reg2, Borrow.seizeAll borrower liq reg l = Except.ok reg2 ∧
        (∀ rid ∈ l, ∃ r2, reg2.receivables rid = some r2 ∧
          r2.status = Registry.ReceivableStatus.Active ∧ r2.owner = liq) ∧
        (∀ j, j ∉ l → reg2.receivables j = reg.receivables j) ∧
        reg2.paused = reg.paused ∧ reg2.hasBorrow = reg.hasBorrow := by
  intro l
  induction l with
  | nil =>
    intro reg borrower liq _ _ _ _
    exact ⟨reg, rfl, by simp, fun j _ => rfl, rfl, rfl⟩
  | cons rid rest ih =>
    intro reg borrower liq hp hb hnd hcol
    obtain ⟨r, hr, hst, hown⟩ := hcol rid (by simp)
    have hu := unlock_ok_eval reg rid r hb hr
      hst
    set s1 := Registry.setRecv reg rid
      { r with status := Registry.ReceivableStatus.Active } with hs1
    have hs1pt : ∀ j, s1.receivables j =
        if j = rid then some { r with status := Registry.ReceivableStatus.Active }
        else reg.receivables j := fun j => rfl
    have hs1p : s1.paused = reg.paused := rfl
    have hs1b : s1.hasBorrow = reg.hasBorrow := rfl
    obtain ⟨s2, htr, hs2pt, hs2p, hs2b⟩ := transfer_ok_char s1 rid
      (r.owner) liq { r with status := Registry.ReceivableStatus.Active }
      (hs1p.trans hp) (by rw [hs1pt rid, if_pos rfl]) rfl rfl
    have hnd2 := List.nodup_cons.mp hnd
    have hcol2 : ∀ rid2 ∈ rest, ∃ r2, s2.receivables rid2 = some r2 ∧
        r2.status = Registry.ReceivableStatus.Collateralized ∧
        r2.owner = borrower := by
      intro rid2 hm
      obtain ⟨r2, hr2, hst2, hown2⟩ := hcol rid2 (by simp [hm])
      have hne : rid2 ≠ rid := by
        rintro rfl
        exact hnd2.1 hm
      refine ⟨r2, ?_, hst2, hown2⟩
      rw [hs2pt rid2, if_neg hne, hs1pt rid2, if_neg hne]
      exact hr2
    obtain ⟨reg2, hrest, hstat2, hunch2, hp3, hb3⟩ :=
      ih s2 borrower liq (hs2p.trans (hs1p.trans hp))
        (hs2b.trans (hs1b.trans hb)) hnd2.2 hcol2
    refine ⟨reg2, ?_, ?_, ?_, hp3.trans (hs2p.trans hs1p),
      hb3.trans (hs2b.trans hs1b)⟩
    · simp only [Borrow.seizeAll, hu]
      rw [hown] at htr
      simp only [htr]
      exact hrest
    · intro rid2 hm
      rcases List.mem_cons.mp hm with hm1 | hm2
      · subst hm1
        by_cases hin : rid2 ∈ rest
        · exact hstat2 rid2 hin
        · refine ⟨{ r with
              status := Registry.ReceivableStatus.Active,
              owner := liq }, ?_, rfl, rfl⟩
          rw [hunch2 rid2 hin, hs2pt rid2, if_pos rfl]
      · exact hstat2 rid2 hm2
    · intro j hj
      have hj1 : j ≠ rid := fun hcon => hj (hcon ▸ List.mem_cons_self rid rest)
      have hj2 : j ∉ rest := fun hcon => hj (List.mem_cons_of_mem rid hcon)
      rw [hunch2 j hj2, hs2pt j, if_neg hj1, hs1pt j, if_neg hj1]

theorem liq_recv_ok_eval (v : Vault.VaultStore) (r s : Int)
    (hb : v.hasBorrow = true) (h1 : i128Ok (r + s) = true)
    (hrpos : 0 < r) (h2 : i128Ok (v.state.total_deposits + r) = true) :
    Vault.liq_recv v r s = Except.ok { v with state := { v.state with
      total_borrowed := satSub v.state.total_borrowed (r + s),
      total_deposits := v.state.total_deposits + r } } := by
  simp [Vault.liq_recv, hb, checkedAdd_eq_some h1, hrpos, checkedAdd_eq_some h2]

/-- C5 counterexample: liquidating the loan of sysC5 (collateral_value
1,000,000, total debt 900,000, penalty 500 bps) emits recovered = 945,000
and shortfall = −45,000: the i128 saturating subtraction clamps at the
numeric i128 bounds, not at zero, so shortfall is total_debt − recovered
exactly and is negative here — not max(0, total_debt − recovered) = 0 as
claimed. -/
theorem liquidate_shortfall_counterexample :
    callResult (Borrow.liquidate sysC5 9 1) = some (945000, -45000) ∧
    max (0 : Int) (900000 - 945000) = 0 ∧
    (-45000 : Int) ≠ 0 := by
  exact ⟨rfl, by decide, by decide⟩

/-- C5 (amended): for every Active loan, liquidate fails with
not-liquidatable exactly when current_ltv = floor(total_debt * 10000 /
collateral_value) does not exceed liquidation_threshold and now ≤ due_date;
when either trigger holds it succeeds (under the stated well-formedness
side conditions), computing penalty = floor(total_debt *
liquidation_penalty / 10000), liq_value = total_debt + penalty,
recovered = min(collateral_value, liq_value), and shortfall =
total_debt − recovered by saturating i128 subtraction (which may be
negative when recovery including the penalty exceeds the debt; it is not
floored at zero), and marks the loan Liquidated. -/
theorem liquidate_amended :
    ∀ (σ : Sys) (liquidator loan_id : Nat) (loan0 loan : Borrow.Loan)
      (td penalty recovered shortfall : Int),
      td = loan.principal + loan.accrued_interest →
      penalty = td * σ.config.liquidation_penalty / 10000 →
      recovered = min loan.collateral_value (td + penalty) →
      shortfall = satSub td recovered →
      σ.paused = false →
      σ.loans loan_id = some loan0 →
      loan0.status = Borrow.LoanStatus.Active →
      Borrow.accrue σ.now loan0 = Except.ok loan →
      0 < loan.principal → 0 ≤ loan.accrued_interest →
      i128Ok td = true →
      0 < loan.collateral_value → loan.collateral_value ≤ I128_MAX →
      td * 10000 < 2 ^ 127 →
      0 ≤ σ.config.liquidation_penalty →
      σ.config.liquidation_penalty ≤ I128_MAX →
      td * σ.config.liquidation_penalty < 2 ^ 127 →
      i128Ok (td + penalty) = true →
      σ.reg.paused = false → σ.reg.hasBorrow = true →
      loan.receivable_ids.Nodup →
      (∀ rid ∈ loan.receivable_ids, ∃ r, σ.reg.receivables rid = some r ∧
        r.status = Registry.ReceivableStatus.Collateralized ∧
        r.owner = loan.borrower) →
      σ.vault.hasBorrow = true →
      i128Ok (recovered + shortfall) = true →
      i128Ok (σ.vault.state.total_deposits + recovered) = true →
      ((td * 10000 / loan.collateral_value ≤ σ.config.liquidation_threshold ∧
          σ.now ≤ loan.due_date →
        Borrow.liquidate σ liquidator loan_id
          = Except.error (XError.bor Borrow.Error.NotLiquidatable)) ∧
       (σ.config.liquidation_threshold < td * 10000 / loan.collateral_value ∨
          loan.due_date < σ.now →
        callResult (Borrow.liquidate σ liquidator loan_id)
          = some (recovered, shortfall) ∧
        (runAtomic σ (Borrow.liquidate σ liquidator loan_id)).loans loan_id
          = some { loan with status := Borrow.LoanStatus.Liquidated })) := by
  intro σ liquidator loan_id loan0 loan td penalty recovered shortfall
    htd hpen hrec hsf hp hlook hst0 hacc h0p h0i hokt hcv0 hcvM hq1 hpen0
    hpenM hq2 hokl hrp hrb hnd hcol hvb hokrs hoktd
  subst hsf
  subst hrec
  subst hpen
  subst htd
  have h0td : 0 < loan.principal + loan.accrued_interest := by omega
  have htdM : loan.principal + loan.accrued_interest ≤ I128_MAX := by
    rw [i128Ok_iff] at hokt
    exact hokt.2
  have hltv_ev : Borrow.mul_div (loan.principal + loan.accrued_interest) 10000
      loan.collateral_value = Except.ok
        ((loan.principal + loan.accrued_interest) * 10000
          / loan.collateral_value) :=
    borrow_mul_div_eval (by omega) (by norm_num) hcv0
      (by simp only [I128_MAX, U128_SIZE] at *; omega)
      (by simp only [U128_SIZE]; norm_num)
      (by simp only [I128_MAX, U128_SIZE] at *; omega)
      (by simp only [U128_SIZE]; omega)
      (by
        have := Int.ediv_le_self loan.collateral_value
          (mul_nonneg (by omega : (0:Int) ≤ loan.principal + loan.accrued_interest)
            (by norm_num : (0:Int) ≤ 10000))
        omega)
  have hpen_ev : Borrow.mul_div (loan.principal + loan.accrued_interest)
      σ.config.liquidation_penalty 10000 = Except.ok
        ((loan.principal + loan.accrued_interest)
          * σ.config.liquidation_penalty / 10000) :=
    borrow_mul_div_eval (by omega) hpen0 (by norm_num)
      (by simp only [I128_MAX, U128_SIZE] at *; omega)
      (by simp only [I128_MAX, U128_SIZE] at *; omega)
      (by simp only [U128_SIZE]; norm_num)
      (by simp only [U128_SIZE]; omega)
      (by
        have := Int.ediv_le_self 10000
          (mul_nonneg (by omega : (0:Int) ≤ loan.principal + loan.accrued_interest)
            hpen0)
        omega)
  constructor
  · intro hA
    simp only [Borrow.liquidate]
    rw [if_neg (by simp [hp])]
    simp only [Borrow.get_internal, hlook]
    rw [if_neg (by simp [hst0])]
    simp only [hacc, checkedAdd_eq_some hokt, hltv_ev]
    rw [if_pos ⟨by omega, by omega⟩]
  · intro hB
    obtain ⟨reg2, hsz, -, -, -, -⟩ := seizeAll_ok loan.receivable_ids σ.reg
      loan.borrower liquidator hrp hrb hnd hcol
    have hpen_nonneg : (0:Int) ≤ (loan.principal + loan.accrued_interest)
        * σ.config.liquidation_penalty / 10000 :=
      Int.ediv_nonneg (mul_nonneg (by omega) hpen0) (by norm_num)
    have hrecpos : (0:Int) < min loan.collateral_value
        ((loan.principal + loan.accrued_interest)
          + (loan.principal + loan.accrued_interest)
            * σ.config.liquidation_penalty / 10000) := by
      omega
    have hlr := liq_recv_ok_eval σ.vault _ _ hvb hokrs hrecpos hoktd
    have hBneg : ¬(¬((loan.principal + loan.accrued_interest) * 10000
        / loan.collateral_value > σ.config.liquidation_threshold)
        ∧ ¬(σ.now > loan.due_date)) := by
      rcases hB with h | h
      · exact fun hc => hc.1 (by omega)
      · exact fun hc => hc.2 (by omega)
    constructor
    · simp only [callResult, Borrow.liquidate]
      rw [if_neg (by simp [hp])]
      simp only [Borrow.get_internal, hlook]
      rw [if_neg (by simp [hst0])]
      simp only [hacc, checkedAdd_eq_some hokt, hltv_ev]
      rw [if_neg hBneg]
      simp only [hpen_ev, checkedAdd_eq_some hokl, hsz, hlr]
    · simp only [runAtomic, Borrow.liquidate]
      rw [if_neg (by simp [hp])]
      simp only [Borrow.get_internal, hlook]
      rw [if_neg (by simp [hst0])]
      simp only [hacc, checkedAdd_eq_some hokt, hltv_ev]
      rw [if_neg hBneg]
      simp only [hpen_ev, checkedAdd_eq_some hokl, hsz, hlr]
      simp [Borrow.setLoan]

/-- Witness for the amended C5 at the spec scenario: collateral 1,000,000
against total debt 900,000 with a 500 bps penalty; the LTV of 9000 bps
exceeds the 8500 threshold, liquidation succeeds with penalty 45,000,
recovered 945,000, shortfall −45,000, and the loan is marked Liquidated. -/
theorem liquidate_amended_witness :
    callResult (Borrow.liquidate sysC5 9 1) = some (945000, -45000) ∧
    (45000 : Int) = 900000 * sysC5.config.liquidation_penalty / 10000 ∧
    (945000 : Int) = min 1000000 (900000 + 45000) ∧
    (-45000 : Int) = satSub 900000 945000 ∧
    (runAtomic sysC5 (Borrow.liquidate sysC5 9 1)).loans 1
      = some { loanC5 with status := Borrow.LoanStatus.Liquidated } := by
  have h := (liquidate_amended sysC5 9 1 loanC5 loanC5 900000 45000 945000
    (-45000) (by decide) (by decide) (by decide) (by decide) rfl rfl rfl rfl
    (by decide) (by decide) (by decide) (by decide) (by decide) (by decide)
    (by decide) (by decide) (by decide) (by decide) rfl rfl (by decide)
    (by
      intro rid hm
      have : rid = 1 := by
        simpa [loanC5] using hm
      subst this
      exact ⟨_, rfl, rfl, rfl⟩)
    rfl (by decide) (by decide)).2 (by decide)
  exact ⟨h.1, by decide, by decide, by decide, h.2⟩

-- ===========================================================================
-- C9: strong exception safety
-- ===========================================================================

/-- C9: every Borrow Engine operation that returns an error leaves all state
unchanged — under the host's call-stack-scoped atomicity (modelled by
runAtomic, see its doc comment), a failed entry point keeps the pre-call
state; in particular a borrow whose nested Vault.disburse fails rolls back
every receivable lock already applied, so no receivable status changes as a
result of a failed borrow. -/
theorem error_rollback :
    (∀ (σ : Sys) (b : Nat) (rids : List Nat) (amt : Int) (dur : Nat)
        (e : XError),
        Borrow.borrow σ b rids amt dur = Except.error e →
        runAtomic σ (Borrow.borrow σ b rids amt dur) = σ ∧
        ∀ rid, Registry.statusOf
            (runAtomic σ (Borrow.borrow σ b rids amt dur)).reg rid
          = Registry.statusOf σ.reg rid) ∧
    (∀ (σ : Sys) (b lid : Nat) (amt : Int) (e : XError),
        Borrow.repay_loan σ b lid amt = Except.error e →
        runAtomic σ (Borrow.repay_loan σ b lid amt) = σ) ∧
    (∀ (σ : Sys) (liq lid : Nat) (e : XError),
        Borrow.liquidate σ liq lid = Except.error e →
        runAtomic σ (Borrow.liquidate σ liq lid) = σ) ∧
    (∀ (σ : Sys) (lid : Nat) (e : XError),
        Borrow.accrue_interest σ lid = Except.error e →
        runAtomic σ (Borrow.accrue_interest σ lid) = σ) := by
  refine ⟨?_, ?_, ?_, ?_⟩
  · intro σ b rids amt dur e h
    rw [h]
    exact ⟨rfl, fun _ => rfl⟩
  · intro σ b lid amt e h
    rw [h]
    exact rfl
  · intro σ liq lid e h
    rw [h]
    exact rfl
  · intro σ lid e h
    rw [h]
    exact rfl

/-- Witness for C9 at a concrete system: in sysC9 the collateral validation
and LTV check pass and the receivable is locked mid-operation, but the
nested Vault.disburse fails with insufficient liquidity (the vault is
empty); the borrow returns that vault error and the post-call state equals
the pre-call state, the receivable still Active. -/
theorem error_rollback_witness :
    Borrow.borrow sysC9 7 [1] 700000 31557600
      = Except.error (XError.vault Vault.Error.InsufficientLiquidity) ∧
    runAtomic sysC9 (Borrow.borrow sysC9 7 [1] 700000 31557600) = sysC9 ∧
    Registry.statusOf sysC9.reg 1 = some Registry.ReceivableStatus.Active := by
  have hb : Borrow.borrow sysC9 7 [1] 700000 31557600
      = Except.error (XError.vault Vault.Error.InsufficientLiquidity) := rfl
  exact ⟨hb, (error_rollback.1 sysC9 7 [1] 700000 31557600 _ hb).1, rfl⟩

-- ===========================================================================
-- C10: terminal statuses
-- ===========================================================================

theorem lock_preserves_terminal (s : Registry.RegStore) (rid : Nat)
    (r : Registry.Receivable) (hr : s.receivables rid = some r)
    (hterm : r.status = Registry.ReceivableStatus.Settled ∨
      r.status = Registry.ReceivableStatus.Defaulted) :
    Registry.statusOf (Registry.regRun s (Registry.lock s rid)) rid
      = some r.status := by
  have hne : ¬ r.status = Registry.ReceivableStatus.Active := by
    rcases hterm with h | h <;> simp [h]
  by_cases hp : s.paused
  · simp [Registry.lock, Registry.require_not_paused, hp, Registry.regRun,
      Registry.statusOf, hr]
  · by_cases hb : s.hasBorrow
    · simp [Registry.lock, Registry.require_not_paused,
        Registry.require_borrow_contract, Registry.get_internal, hp, hb, hr,
        hne, Registry.regRun, Registry.statusOf]
    · simp [Registry.lock, Registry.require_not_paused,
        Registry.require_borrow_contract, hp, hb, Registry.regRun,
        Registry.statusOf, hr]

theorem unlock_preserves_terminal (s : Registry.RegStore) (rid : Nat)
    (r : Registry.Receivable) (hr : s.receivables rid = some r)
    (hterm : r.status = Registry.ReceivableStatus.Settled ∨
      r.status = Registry.ReceivableStatus.Defaulted) :
    Registry.statusOf (Registry.regRun s (Registry.unlock s rid)) rid
      = some r.status := by
  have hne : ¬ r.status = Registry.ReceivableStatus.Collateralized := by
    rcases hterm with h | h <;> simp [h]
  by_cases hb : s.hasBorrow
  · simp [Registry.unlock, Registry.require_borrow_contract,
      Registry.get_internal, hb, hr, hne, Registry.regRun, Registry.statusOf]
  · simp [Registry.unlock, Registry.require_borrow_contract, hb,
      Registry.regRun, Registry.statusOf, hr]

theorem transfer_preserves_terminal (s : Registry.RegStore) (rid f t : Nat)
    (r : Registry.Receivable) (hr : s.receivables rid = some r)
    (hterm : r.status = Registry.ReceivableStatus.Settled ∨
      r.status = Registry.ReceivableStatus.Defaulted) :
    Registry.statusOf (Registry.regRun s (Registry.transfer s rid f t)) rid
      = some r.status := by
  have hne : ¬ r.status = Registry.ReceivableStatus.Active := by
    rcases hterm with h | h <;> simp [h]
  by_cases hp : s.paused
  · simp [Registry.transfer, Registry.require_not_paused, hp, Registry.regRun,
      Registry.statusOf, hr]
  · by_cases hown : r.owner = f
    · simp [Registry.transfer, Registry.require_not_paused,
        Registry.get_internal, hp, hr, hown, hne, Registry.regRun,
        Registry.statusOf]
    · simp [Registry.transfer, Registry.require_not_paused,
        Registry.get_internal, hp, hr, hown, Registry.regRun,
        Registry.statusOf]

theorem settle_preserves_terminal (s : Registry.RegStore) (rid : Nat)
    (r : Registry.Receivable) (hr : s.receivables rid = some r)
    (hterm : r.status = Registry.ReceivableStatus.Settled ∨
      r.status = Registry.ReceivableStatus.Defaulted) :
    Registry.statusOf (Registry.regRun s (Registry.settle s rid)) rid
      = some r.status := by
  have hne1 : ¬ r.status = Registry.ReceivableStatus.Active := by
    rcases hterm with h | h <;> simp [h]
  have hne2 : ¬ r.status = Registry.ReceivableStatus.Matured := by
    rcases hterm with h | h <;> simp [h]
  simp [Registry.settle, Registry.get_internal, hr, hne1, hne2,
    Registry.regRun, Registry.statusOf]

theorem mark_default_sets_defaulted (s : Registry.RegStore) (rid : Nat)
    (r : Registry.Receivable) (hr : s.receivables rid = some r) :
    Registry.statusOf (Registry.regRun s (Registry.mark_default s rid)) rid
      = some Registry.ReceivableStatus.Defaulted := by
  simp [Registry.mark_default, Registry.get_internal, hr, Registry.regRun,
    Registry.statusOf, Registry.setRecv]

/-- C10 counterexample: the registry store regC10 holds receivable 1 in the
terminal status Settled, yet mark_default succeeds and changes its status to
Defaulted — an operation does change a Settled receivable. -/
theorem settled_mark_default_counterexample :
    Registry.statusOf regC10 1 = some Registry.ReceivableStatus.Settled ∧
    Registry.regOk (Registry.mark_default regC10 1) = true ∧
    Registry.statusOf (Registry.regRun regC10 (Registry.mark_default regC10 1)) 1
      = some Registry.ReceivableStatus.Defaulted ∧
    Registry.ReceivableStatus.Defaulted ≠ Registry.ReceivableStatus.Settled := by
  exact ⟨rfl, rfl, rfl, by decide⟩

/-- C10 (amended): loan statuses are terminal — once a loan is Repaid or
Liquidated, repay_loan, liquidate (in particular a second liquidate) and
accrue_interest all fail with invalid-status; a Settled or Defaulted
receivable is left unchanged by settle, lock, unlock and transfer; but
mark_default has no status check: it maps any receivable — including a
Settled one — to Defaulted (so a Defaulted receivable stays Defaulted,
while a Settled one is changed, contrary to the original claim). -/
theorem terminal_status_amended :
    (∀ (σ : Sys) (b lid : Nat) (amt : Int) (loan : Borrow.Loan),
        σ.paused = false → 0 < amt → σ.loans lid = some loan →
        (loan.status = Borrow.LoanStatus.Repaid ∨
         loan.status = Borrow.LoanStatus.Liquidated) →
        Borrow.repay_loan σ b lid amt
          = Except.error (XError.bor Borrow.Error.InvalidStatus)) ∧
    (∀ (σ : Sys) (liq lid : Nat) (loan : Borrow.Loan),
        σ.paused = false → σ.loans lid = some loan →
        (loan.status = Borrow.LoanStatus.Repaid ∨
         loan.status = Borrow.LoanStatus.Liquidated) →
        Borrow.liquidate σ liq lid
          = Except.error (XError.bor Borrow.Error.InvalidStatus)) ∧
    (∀ (σ : Sys) (lid : Nat) (loan : Borrow.Loan),
        σ.loans lid = some loan →
        (loan.status = Borrow.LoanStatus.Repaid ∨
         loan.status = Borrow.LoanStatus.Liquidated) →
        Borrow.accrue_interest σ lid
          = Except.error (XError.bor Borrow.Error.InvalidStatus)) ∧
    (∀ (s : Registry.RegStore) (rid : Nat) (r : Registry.Receivable),
        s.receivables rid = some r →
        (r.status = Registry.ReceivableStatus.Settled ∨
         r.status = Registry.ReceivableStatus.Defaulted) →
        Registry.statusOf (Registry.regRun s (Registry.lock s rid)) rid
            = some r.status ∧
        Registry.statusOf (Registry.regRun s (Registry.unlock s rid)) rid
            = some r.status ∧
        (∀ f t, Registry.statusOf
            (Registry.regRun s (Registry.transfer s rid f t)) rid
            = some r.status) ∧
        Registry.statusOf (Registry.regRun s (Registry.settle s rid)) rid
            = some r.status) ∧
    (∀ (s : Registry.RegStore) (rid : Nat) (r : Registry.Receivable),
        s.receivables rid = some r →
        Registry.statusOf (Registry.regRun s (Registry.mark_default s rid)) rid
          = some Registry.ReceivableStatus.Defaulted) := by
  refine ⟨?_, ?_, ?_, ?_, mark_default_sets_defaulted⟩
  · intro σ b lid amt loan hp hamt hl hterm
    have hne : ¬ loan.status = Borrow.LoanStatus.Active := by
      rcases hterm with h | h <;> simp [h]
    simp [Borrow.repay_loan, hp, Borrow.get_internal, hl, hne,
      (show ¬ amt ≤ 0 by omega)]
  · intro σ liq lid loan hp hl hterm
    have hne : ¬ loan.status = Borrow.LoanStatus.Active := by
      rcases hterm with h | h <;> simp [h]
    simp [Borrow.liquidate, hp, Borrow.get_internal, hl, hne]
  · intro σ lid loan hl hterm
    have hne : ¬ loan.status = Borrow.LoanStatus.Active := by
      rcases hterm with h | h <;> simp [h]
    simp [Borrow.accrue_interest, Borrow.get_internal, hl, hne]
  · intro s rid r hr hterm
    exact ⟨lock_preserves_terminal s rid r hr hterm,
      unlock_preserves_terminal s rid r hr hterm,
      fun f t => transfer_preserves_terminal s rid f t r hr hterm,
      settle_preserves_terminal s rid r hr hterm⟩

/-- Witness for the amended C10 at concrete stores: a second liquidate on the
already-Liquidated loan 1 fails with invalid-status, and the Settled
receivable of regC10 is unchanged by lock, unlock, transfer and settle. -/
theorem terminal_status_amended_witness :
    Borrow.liquidate sysC10 9 1
      = Except.error (XError.bor Borrow.Error.InvalidStatus) ∧
    Borrow.repay_loan sysC10 7 1 100
      = Except.error (XError.bor Borrow.Error.InvalidStatus) ∧
    Registry.statusOf (Registry.regRun regC10 (Registry.lock regC10 1)) 1
      = some Registry.ReceivableStatus.Settled ∧
    Registry.statusOf (Registry.regRun regC10 (Registry.unlock regC10 1)) 1
      = some Registry.ReceivableStatus.Settled ∧
    Registry.statusOf (Registry.regRun regC10 (Registry.transfer regC10 1 7 9)) 1
      = some Registry.ReceivableStatus.Settled ∧
    Registry.statusOf (Registry.regRun regC10 (Registry.settle regC10 1)) 1
      = some Registry.ReceivableStatus.Settled := by
  have hr : regC10.receivables 1
      = some (mkRecv 1 7 1000000 0 Registry.ReceivableStatus.Settled) := rfl
  have hterm : (mkRecv 1 7 1000000 0 Registry.ReceivableStatus.Settled).status
      = Registry.ReceivableStatus.Settled ∨
      (mkRecv 1 7 1000000 0 Registry.ReceivableStatus.Settled).status
      = Registry.ReceivableStatus.Defaulted := Or.inl rfl
  have hreg := terminal_status_amended.2.2.2.1 regC10 1 _ hr hterm
  exact ⟨terminal_status_amended.2.1 sysC10 9 1 loanLiq rfl rfl (Or.inr rfl),
    terminal_status_amended.1 sysC10 7 1 100 loanLiq rfl (by decide) rfl (Or.inr rfl),
    hreg.1, hreg.2.1, hreg.2.2.1 7 9, hreg.2.2.2⟩

/-- Witness for the amended C6 at a concrete input: depositing 4 into a
vault holding 3 shares against 2 assets succeeds and yields exactly
floor(4 * 3 / 2) = 6 shares. -/
theorem deposit_shares_amended_witness :
    depShares (Vault.deposit vC6w (some ⟨10, 0⟩) 0 4) = some 6 ∧
    (6 : Int) = 4 * vC6w.state.total_shares / Vault.calc_total_assets vC6w.state ∧
    (0 : Int) < 6 := by
  have h := (deposit_shares_amended vC6w (some ⟨10, 0⟩) 0 4 6).1 (by rfl)
  exact ⟨by rfl,
    h.2.2.1 (by decide) (by decide) (by decide) (by decide) (by decide)
      (by decide) (by decide) (by decide), h.2.2.2⟩

end Nexum
